import Mathlib

/-!
A shallow embedding of the `avos` experimentation platform's core
(layer/slot allocation, the config synchronizer, splitters, allocation
validation and the SRM tester), translated from the Python sources under
`src/avos`, together with proofs settling the frozen claims C1-C10.

Conventions of the embedding:
* Python floats (percentages, allocations, tolerances) are modelled as `ℚ`.
* Python dicts keyed by strings are modelled as association lists
  `List (String × _)`; Python dict equality (same key set, same value per
  key) is `dictEqBy` below.
* SQLAlchemy sessions are modelled by `Sess`: a `working` database (what
  in-session queries observe, including uncommitted mutations) and a
  `persisted` database (the last committed state). `session.commit()`
  copies `working` into `persisted`; an exception makes the caller's
  rollback discard `working`, so the observable state after a failed call
  is `persisted`.
* Raised exceptions are modelled by `Err`; a stateful operation returns
  `Res α`, carrying the session in both the normal and the raised case.
* `hashlib.md5` is an external library; slot and variant hashing are
  parameterised by an arbitrary digest function `md5 : String → Nat`.
* ORM rows are identified by their primary keys; mutating the objects
  returned by a query is modelled by updating, keyed on `(layer_id,
  slot_index)` (resp. `experiment_id`), exactly the rows satisfying the
  query's filter.
-/

namespace Avos

/-- Tolerance `1e-9` used by the percentage comparisons in
`layer_service.py` and `config_sync.py`. -/
def tol9 : ℚ := 1 / 1000000000

/-- Tolerance `_ALLOC_TOLERANCE = 1e-6` from `services/splitter.py` and
`models/config_models.py`. -/
def tol6 : ℚ := 1 / 1000000

/-- Modelled from the spec: the module `avos/constants.py` defining
`BUCKET_SPACE` is absent from the source tree (it is only imported by
`layer_service.py`, `config_models.py` and `models/layer.py`).  The spec
fixes `total_slots` as one deployment-wide constant, and the repository's
tests observe the value 100 (`test_layer_service.py` asserts the default
`total_slots == 100`). -/
def BUCKET_SPACE : Nat := 100

/-- `ExperimentStatus` enum from `models/experiment.py`. -/
inductive ExperimentStatus where
  | draft
  | active
  | paused
  | completed
deriving DecidableEq, Repr

/-- A variant → fraction allocation map (`Dict[str, float]`). -/
abbrev AllocMap := List (String × ℚ)

/-- A context-key → allocation-map table (`Dict[str, Dict[str, float]]`),
used for segment/geo/stratum allocations. -/
abbrev AllocTable := List (String × AllocMap)

/-- Python `m.get(k)` / `m[k]` lookup on a string-keyed dict. -/
def lookupKey (m : List (String × α)) (k : String) : Option α :=
  (m.find? fun kv => kv.1 == k).map (·.2)

/-- Python dict equality: both dicts bind the same keys, and the values
bound to a common key are equal (order of insertion is irrelevant). -/
def dictEqBy (f : α → α → Bool) (a b : List (String × α)) : Bool :=
  (a.all fun kv =>
    match lookupKey b kv.1 with
    | some v => f kv.2 v
    | none => false) &&
  (b.all fun kv =>
    match lookupKey a kv.1 with
    | some v => f v kv.2
    | none => false)

/-- Equality of two allocation maps as Python dicts. -/
def allocEq (a b : AllocMap) : Bool :=
  dictEqBy (fun x y => x == y) a b

/-- Equality of two allocation tables as Python dicts of dicts. -/
def allocTableEq (a b : AllocTable) : Bool :=
  dictEqBy allocEq a b

/-- `Layer` row from `models/layer.py` (timestamps omitted). -/
structure Layer where
  layer_id : String
  layer_salt : String
  total_slots : Nat
  total_traffic_percentage : ℚ
deriving DecidableEq, Repr

/-- `LayerSlot` row from `models/layer.py`.  `experiment_id` is the active
experiment, `reserved_experiment_id` the reservation. -/
structure LayerSlot where
  layer_id : String
  slot_index : Nat
  experiment_id : Option String
  reserved_experiment_id : Option String
deriving DecidableEq, Repr

/-- `Experiment` row from `models/experiment.py` (timestamps omitted; the
JSON-string columns `variants`, `traffic_allocation` and the three
`*_allocations` columns are modelled by their parsed values, i.e. by what
`get_variant_list` / `get_traffic_dict` / `get_*_allocations` return on
them; dates are opaque UTC instants).

`reserved_percentage` is Modelled from the spec: `models/experiment.py`
maps no `reserved_percentage` column although `layer_service.py`,
`config_sync.py` and the repository's tests read and set that attribute.
The spec's data model (§3) defines it as the fraction of the layer's
slots reserved for the experiment, always ≥ `traffic_percentage`.  The
literal source, without the attribute, is embedded separately in
namespace `Lit` below. -/
structure Experiment where
  experiment_id : String
  layer_id : String
  name : String
  variants : List String
  traffic_allocation : AllocMap
  start_date : Option Int
  end_date : Option Int
  segment_allocations : Option AllocTable
  geo_allocations : Option AllocTable
  stratum_allocations : Option AllocTable
  splitter_type : String
  traffic_percentage : ℚ
  reserved_percentage : ℚ
  status : ExperimentStatus
  priority : Int
deriving DecidableEq, Repr

/-- `Experiment.get_segment_allocations` (`None` parses to `{}`). -/
def Experiment.get_segment_allocations (e : Experiment) : AllocTable :=
  e.segment_allocations.getD []

/-- `Experiment.get_geo_allocations`. -/
def Experiment.get_geo_allocations (e : Experiment) : AllocTable :=
  e.geo_allocations.getD []

/-- `Experiment.get_stratum_allocations`. -/
def Experiment.get_stratum_allocations (e : Experiment) : AllocTable :=
  e.stratum_allocations.getD []

/-- The persistent store: all layers, slots and experiments. -/
structure DB where
  layers : List Layer
  slots : List LayerSlot
  experiments : List Experiment
deriving DecidableEq, Repr

/-- A SQLAlchemy session over the store: `working` is what queries in the
session observe (including uncommitted mutations), `persisted` the last
committed state. -/
structure Sess where
  persisted : DB
  working : DB
deriving DecidableEq, Repr

/-- `session.commit()`. -/
def commit (s : Sess) : Sess :=
  { persisted := s.working, working := s.working }

/-- A raised Python exception. -/
inductive Err where
  | valueError (msg : String)
  | attributeError (attr : String)
deriving DecidableEq, Repr

/-- Outcome of a stateful operation: normal return or raised exception,
in both cases together with the session. -/
inductive Res (α : Type) where
  | ok : α → Sess → Res α
  | err : Err → Sess → Res α
deriving DecidableEq, Repr

/-- The session carried by a `Res`. -/
def Res.sess : Res α → Sess
  | .ok _ s => s
  | .err _ s => s

/-- Whether a `Res` is a raised exception. -/
def Res.isErr : Res α → Bool
  | .ok _ _ => false
  | .err _ _ => true


/-- `LayerSlotConfig` from `models/config_models.py`. -/
structure LayerSlotConfig where
  slot_index : Nat
  experiment_id : Option String
deriving DecidableEq, Repr

/-- `ExperimentConfig` from `models/config_models.py` (the pydantic
`Literal` status is modelled by `ExperimentStatus`; dates as opaque UTC
instants).

`reserved_percentage` is Modelled from the spec: the pydantic schema in
`models/config_models.py` defines no such field although `config_sync.py`
reads it and the repository's tests construct configs with it; the spec's
config schema (§6) lists `reserved_percentage ≥ traffic_percentage`.  The
literal schema, without the field, is embedded in namespace `Lit`. -/
structure ExperimentConfig where
  experiment_id : String
  layer_id : String
  name : String
  variants : List String
  traffic_allocation : AllocMap
  status : ExperimentStatus
  start_date : Option Int
  end_date : Option Int
  segment_allocations : Option AllocTable
  geo_allocations : Option AllocTable
  stratum_allocations : Option AllocTable
  splitter_type : String
  traffic_percentage : ℚ
  reserved_percentage : ℚ
  priority : Int
deriving DecidableEq, Repr

/-- `LayerConfig` from `models/config_models.py`. -/
structure LayerConfig where
  layer_id : String
  layer_salt : String
  total_slots : Nat
  total_traffic_percentage : ℚ
  experiments : List ExperimentConfig
  slots : Option (List LayerSlotConfig)
deriving DecidableEq, Repr

/-- Python truthiness of the optional `slots` list (`if layer_config.slots:`). -/
def truthySlots : Option (List LayerSlotConfig) → Bool
  | some (_ :: _) => true
  | _ => false

/-- `LayerService.get_layer`: first layer row with the given id. -/
def DB.getLayer (db : DB) (layer_id : String) : Option Layer :=
  db.layers.find? fun l => l.layer_id == layer_id

/-- `LayerService.get_experiment` (`session.get` by primary key). -/
def DB.getExperiment (db : DB) (experiment_id : String) : Option Experiment :=
  db.experiments.find? fun e => e.experiment_id == experiment_id

/-- The free-slot query of `add_experiment` and `_apply_reservation_slots`:
indices of the layer's slots with no reservation, in ascending
`slot_index` order (`ORDER BY slot_index`). -/
def DB.freeSlotIdxs (db : DB) (L : String) : List Nat :=
  List.insertionSort (· ≤ ·)
    ((db.slots.filter fun s =>
        s.layer_id == L && s.reserved_experiment_id == none).map (·.slot_index))

/-- The query of `_apply_ramp_up_slots`: indices of the layer's slots
reserved for `eid` but not yet active, in ascending `slot_index` order. -/
def DB.freeReservedSlotIdxs (db : DB) (L eid : String) : List Nat :=
  List.insertionSort (· ≤ ·)
    ((db.slots.filter fun s =>
        s.layer_id == L && s.reserved_experiment_id == some eid &&
          s.experiment_id == none).map (·.slot_index))

/-- `SELECT count(*) ... WHERE reserved_experiment_id = eid`. -/
def DB.countReservedSlots (db : DB) (L eid : String) : Nat :=
  (db.slots.filter fun s =>
    s.layer_id == L && s.reserved_experiment_id == some eid).length

/-- `SELECT count(*) ... WHERE experiment_id = eid`. -/
def DB.countActiveSlots (db : DB) (L eid : String) : Nat :=
  (db.slots.filter fun s =>
    s.layer_id == L && s.experiment_id == some eid).length

/-- The reservation loop (`slot.reserved_experiment_id = eid` over the
queried free slots): the mutated rows are the layer's unreserved slots
whose index was selected. -/
def DB.reserveSlots (db : DB) (L eid : String) (idxs : List Nat) : DB :=
  { db with slots := db.slots.map fun s =>
      if s.layer_id == L && s.reserved_experiment_id == none &&
          idxs.contains s.slot_index
      then { s with reserved_experiment_id := some eid } else s }

/-- The activation loop of `add_experiment` (`slot.experiment_id = eid`
over `free_slots[:active_slots_needed]`): at that point those rows carry
`reserved_experiment_id = eid`. -/
def DB.activateReservedSlots (db : DB) (L eid : String) (idxs : List Nat) : DB :=
  { db with slots := db.slots.map fun s =>
      if s.layer_id == L && s.reserved_experiment_id == some eid &&
          idxs.contains s.slot_index
      then { s with experiment_id := some eid } else s }

/-- The ramp-up loop of `_apply_ramp_up_slots` (`slot.experiment_id = eid`
over the queried reserved-but-inactive slots). -/
def DB.rampUpSlots (db : DB) (L eid : String) (idxs : List Nat) : DB :=
  { db with slots := db.slots.map fun s =>
      if s.layer_id == L && s.reserved_experiment_id == some eid &&
          s.experiment_id == none && idxs.contains s.slot_index
      then { s with experiment_id := some eid } else s }

/-- The freeing loop of `remove_experiment`: clear both ownership fields
on every slot reserved for `eid`. -/
def DB.freeExperimentSlots (db : DB) (L eid : String) : DB :=
  { db with slots := db.slots.map fun s =>
      if s.layer_id == L && s.reserved_experiment_id == some eid
      then { s with experiment_id := none, reserved_experiment_id := none }
      else s }

/-- Mutation of the experiment row with primary key `eid`. -/
def DB.updateExperiment (db : DB) (eid : String) (f : Experiment → Experiment) : DB :=
  { db with experiments := db.experiments.map fun e =>
      if e.experiment_id == eid then f e else e }

/-- `sum(e.reserved_percentage for e in layer.experiments if e.status !=
ExperimentStatus.COMPLETED)` in `add_experiment`. -/
def DB.layerReservedSum (db : DB) (L : String) : ℚ :=
  ((db.experiments.filter fun e =>
      e.layer_id == L && e.status != ExperimentStatus.completed).map
    (·.reserved_percentage)).sum

/-- `LayerService.create_layer` from `services/layer_service.py`: validate
the fixed bucket-space size, insert the layer row and its `total_slots`
empty slots, commit. -/
def create_layer (s : Sess) (layer_id layer_salt : String) (total_slots : Nat)
    (total_traffic_percentage : ℚ) : Res Layer :=
  if total_slots ≠ BUCKET_SPACE then
    .err (.valueError "total_slots must equal BUCKET_SPACE for fixed bucket space") s
  else
    let layer : Layer :=
      { layer_id := layer_id, layer_salt := layer_salt, total_slots := total_slots,
        total_traffic_percentage := total_traffic_percentage }
    let db := s.working
    let db :=
      { db with
        layers := db.layers ++ [layer],
        slots := db.slots ++ (List.range total_slots).map fun i =>
          { layer_id := layer_id, slot_index := i, experiment_id := none,
            reserved_experiment_id := none } }
    .ok layer (commit { s with working := db })

/-- `LayerService.add_experiment` from `services/layer_service.py`.  The
`math.ceil` results (Python ints used as query limits and loop bounds)
are taken to `Nat` via `Int.toNat`. -/
def add_experiment (s : Sess) (layer : Layer) (experiment : Experiment) : Res Bool :=
  if experiment.layer_id ≠ layer.layer_id then
    .err (.valueError "Experiment.layer_id must match the target layer") s
  else if experiment.reserved_percentage < experiment.traffic_percentage - tol9 then
    .err (.valueError "Experiment.reserved_percentage must be >= traffic_percentage") s
  else
    let db := s.working
    let current_reserved := db.layerReservedSum layer.layer_id
    if current_reserved + experiment.reserved_percentage >
        layer.total_traffic_percentage + tol9 then
      .ok false s
    else
      let reserved_slots_needed :=
        (⌈experiment.reserved_percentage * (layer.total_slots : ℚ)⌉).toNat
      let free_slots := (db.freeSlotIdxs layer.layer_id).take reserved_slots_needed
      if free_slots.length < reserved_slots_needed then
        .ok false s
      else
        let db := db.reserveSlots layer.layer_id experiment.experiment_id free_slots
        let active_slots_needed :=
          (⌈experiment.traffic_percentage * (layer.total_slots : ℚ)⌉).toNat
        if active_slots_needed > reserved_slots_needed then
          .err (.valueError "Experiment.traffic_percentage cannot exceed reserved_percentage")
            { s with working := db }
        else
          let db := db.activateReservedSlots layer.layer_id experiment.experiment_id
            (free_slots.take active_slots_needed)
          let db := { db with experiments := db.experiments ++ [experiment] }
          .ok true (commit { s with working := db })

/-- `LayerService.remove_experiment` from `services/layer_service.py`. -/
def remove_experiment (s : Sess) (layer : Layer) (experiment_id : String) : Res Bool :=
  let db := s.working
  match db.experiments.find? fun e =>
      e.experiment_id == experiment_id && e.layer_id == layer.layer_id with
  | none => .ok false s
  | some _ =>
    let db := db.freeExperimentSlots layer.layer_id experiment_id
    let db := db.updateExperiment experiment_id fun e => { e with status := .completed }
    .ok true (commit { s with working := db })


/-- `_normalize_allocations_optional` from `services/config_sync.py`
(`value or {}`). -/
def normalize_allocations_optional (v : Option AllocTable) : AllocTable :=
  v.getD []

/-- `_is_winner_allocation`'s loop over `variants`, carrying the current
`winner`. -/
def isWinnerLoop (allocation : AllocMap) : List String → Option String → Bool
  | [], winner => winner.isSome
  | v :: rest, winner =>
    let value := (lookupKey allocation v).getD 0
    if |value - 1| ≤ tol6 then
      match winner with
      | some _ => false
      | none => isWinnerLoop allocation rest (some v)
    else if |value| > tol6 then false
    else isWinnerLoop allocation rest winner

/-- `_is_winner_allocation` from `services/config_sync.py`: exactly one
variant allocated 1.0 (within 1e-6), all others 0. -/
def is_winner_allocation (variants : List String) (allocation : AllocMap) : Bool :=
  if allocation.isEmpty then false
  else isWinnerLoop allocation variants none

/-- `_build_experiment` from `services/config_sync.py` (the read of the
spec-modelled `reserved_percentage` field included). -/
def build_experiment (cfg : ExperimentConfig) : Experiment :=
  { experiment_id := cfg.experiment_id, layer_id := cfg.layer_id,
    name := cfg.name, variants := cfg.variants,
    traffic_allocation := cfg.traffic_allocation,
    status := cfg.status, start_date := cfg.start_date,
    end_date := cfg.end_date,
    segment_allocations := cfg.segment_allocations,
    geo_allocations := cfg.geo_allocations,
    stratum_allocations := cfg.stratum_allocations,
    splitter_type := cfg.splitter_type,
    traffic_percentage := cfg.traffic_percentage,
    reserved_percentage := cfg.reserved_percentage,
    priority := cfg.priority }

/-- `_validate_experiment_immutables` from `services/config_sync.py`. -/
def validate_experiment_immutables (existing : Experiment)
    (cfg : ExperimentConfig) : Except Err Unit :=
  if existing.layer_id ≠ cfg.layer_id then
    .error (.valueError "layer_id cannot be changed")
  else if existing.splitter_type ≠ cfg.splitter_type then
    .error (.valueError "splitter_type cannot be changed")
  else if existing.variants ≠ cfg.variants then
    .error (.valueError "variants cannot be changed")
  else if ¬ allocTableEq existing.get_segment_allocations
      (normalize_allocations_optional cfg.segment_allocations) then
    .error (.valueError "segment_allocations cannot be changed")
  else if ¬ allocTableEq existing.get_geo_allocations
      (normalize_allocations_optional cfg.geo_allocations) then
    .error (.valueError "geo_allocations cannot be changed")
  else if ¬ allocTableEq existing.get_stratum_allocations
      (normalize_allocations_optional cfg.stratum_allocations) then
    .error (.valueError "stratum_allocations cannot be changed")
  else if ¬ allocEq existing.traffic_allocation cfg.traffic_allocation then
    if is_winner_allocation cfg.variants cfg.traffic_allocation then
      .error (.valueError "winner allocation is allowed only when status is completed")
    else
      .error (.valueError "traffic_allocation cannot be changed")
  else
    .ok ()

/-- `_validate_traffic_percentage_change` from `services/config_sync.py`. -/
def validate_traffic_percentage_change (existing : Experiment)
    (cfg : ExperimentConfig) : Except Err Unit :=
  if cfg.traffic_percentage < existing.traffic_percentage - tol9 then
    .error (.valueError "traffic_percentage cannot decrease")
  else if cfg.traffic_percentage > cfg.reserved_percentage + tol9 then
    .error (.valueError "traffic_percentage cannot exceed reserved_percentage")
  else
    .ok ()

/-- `_validate_reserved_percentage_change` from `services/config_sync.py`
(the SQL sum over the layer's other non-completed experiments inlined). -/
def validate_reserved_percentage_change (db : DB) (layer : Layer)
    (existing : Experiment) (cfg : ExperimentConfig) : Except Err Unit :=
  if cfg.reserved_percentage < existing.reserved_percentage - tol9 then
    .error (.valueError "reserved_percentage cannot decrease")
  else if cfg.reserved_percentage + tol9 < cfg.traffic_percentage then
    .error (.valueError "reserved_percentage must be >= traffic_percentage")
  else
    let total_other :=
      ((db.experiments.filter fun e =>
          e.layer_id == layer.layer_id &&
            e.experiment_id != existing.experiment_id &&
            e.status != ExperimentStatus.completed).map
        (·.reserved_percentage)).sum
    if total_other + cfg.reserved_percentage >
        layer.total_traffic_percentage + tol9 then
      .error (.valueError "reserved_percentage exceeds layer capacity")
    else
      .ok ()

/-- `_apply_reservation_slots` from `services/config_sync.py`. -/
def apply_reservation_slots (s : Sess) (layer : Layer) (existing : Experiment)
    (cfg : ExperimentConfig) : Res Unit :=
  let db := s.working
  let desired_slots : ℤ := ⌈cfg.reserved_percentage * (layer.total_slots : ℚ)⌉
  let current_slots : ℤ := db.countReservedSlots layer.layer_id existing.experiment_id
  if desired_slots < current_slots then
    .err (.valueError "reserved_percentage cannot decrease") s
  else
    let additional_slots := desired_slots - current_slots
    if additional_slots ≤ 0 then .ok () s
    else
      let free_slots := (db.freeSlotIdxs layer.layer_id).take additional_slots.toNat
      if free_slots.length < additional_slots.toNat then
        .err (.valueError "insufficient free slots for reservation") s
      else
        .ok () { s with working :=
          db.reserveSlots layer.layer_id existing.experiment_id free_slots }

/-- `_apply_ramp_up_slots` from `services/config_sync.py`. -/
def apply_ramp_up_slots (s : Sess) (layer : Layer) (existing : Experiment)
    (cfg : ExperimentConfig) : Res Unit :=
  let db := s.working
  let desired_slots : ℤ := ⌈cfg.traffic_percentage * (layer.total_slots : ℚ)⌉
  let current_slots : ℤ := db.countActiveSlots layer.layer_id existing.experiment_id
  if desired_slots < current_slots then
    .err (.valueError "traffic_percentage cannot decrease") s
  else
    let additional_slots := desired_slots - current_slots
    if additional_slots ≤ 0 then .ok () s
    else
      let free_reserved_slots :=
        (db.freeReservedSlotIdxs layer.layer_id existing.experiment_id).take
          additional_slots.toNat
      if free_reserved_slots.length < additional_slots.toNat then
        .err (.valueError "insufficient reserved slots for ramp up") s
      else
        .ok () { s with working :=
          db.rampUpSlots layer.layer_id existing.experiment_id free_reserved_slots }

/-- `_update_experiment` from `services/config_sync.py`: the field
assignments performed on the stored experiment row. -/
def update_experiment_fields (cfg : ExperimentConfig) (e : Experiment) : Experiment :=
  { e with
    name := cfg.name,
    traffic_allocation := cfg.traffic_allocation,
    status := cfg.status,
    start_date := cfg.start_date,
    end_date := cfg.end_date,
    segment_allocations := cfg.segment_allocations,
    geo_allocations := cfg.geo_allocations,
    stratum_allocations := cfg.stratum_allocations,
    traffic_percentage := cfg.traffic_percentage,
    reserved_percentage := cfg.reserved_percentage,
    priority := cfg.priority }

/-- The `status == "completed"` branch of `_apply_experiment_config`
(lines 52-83 of `services/config_sync.py`). -/
def apply_completed_config (s : Sess) (layer : Layer) (cfg : ExperimentConfig) :
    Res Unit :=
  match s.working.getExperiment cfg.experiment_id with
  | none => .ok () s
  | some existing =>
    if existing.layer_id ≠ cfg.layer_id then
      .err (.valueError "layer_id cannot be changed") s
    else if existing.splitter_type ≠ cfg.splitter_type then
      .err (.valueError "splitter_type cannot be changed") s
    else if existing.variants ≠ cfg.variants then
      .err (.valueError "variants cannot be changed") s
    else if ¬ allocTableEq existing.get_segment_allocations
        (normalize_allocations_optional cfg.segment_allocations) then
      .err (.valueError "segment_allocations cannot be changed") s
    else if ¬ allocTableEq existing.get_geo_allocations
        (normalize_allocations_optional cfg.geo_allocations) then
      .err (.valueError "geo_allocations cannot be changed") s
    else if ¬ allocTableEq existing.get_stratum_allocations
        (normalize_allocations_optional cfg.stratum_allocations) then
      .err (.valueError "stratum_allocations cannot be changed") s
    else if ¬ allocEq existing.traffic_allocation cfg.traffic_allocation then
      if ¬ is_winner_allocation cfg.variants cfg.traffic_allocation then
        .err (.valueError "traffic_allocation can only change to a winner allocation when status is completed") s
      else
        let s1 := { s with working := (s.working.updateExperiment cfg.experiment_id
          (fun e => { e with traffic_allocation := cfg.traffic_allocation })) }
        match remove_experiment s1 layer cfg.experiment_id with
        | .ok _ s2 => .ok () s2
        | .err e s2 => .err e s2
    else
      match remove_experiment s layer cfg.experiment_id with
      | .ok _ s2 => .ok () s2
      | .err e s2 => .err e s2

/-- `_apply_experiment_config` from `services/config_sync.py`. -/
def apply_experiment_config (s : Sess) (layer : Layer) (cfg : ExperimentConfig) :
    Res Unit :=
  if cfg.status = ExperimentStatus.completed then
    apply_completed_config s layer cfg
  else
    match s.working.getExperiment cfg.experiment_id with
    | none =>
      match add_experiment s layer (build_experiment cfg) with
      | .ok true s1 => .ok () s1
      | .ok false s1 => .err (.valueError "failed to add experiment") s1
      | .err e s1 => .err e s1
    | some existing =>
      if existing.status = ExperimentStatus.completed then
        .err (.valueError "experiment is completed and cannot be modified") s
      else
        match validate_experiment_immutables existing cfg with
        | .error e => .err e s
        | .ok () =>
          match validate_traffic_percentage_change existing cfg with
          | .error e => .err e s
          | .ok () =>
            match validate_reserved_percentage_change s.working layer existing cfg with
            | .error e => .err e s
            | .ok () =>
              match apply_reservation_slots s layer existing cfg with
              | .err e s1 => .err e s1
              | .ok () s1 =>
                match apply_ramp_up_slots s1 layer existing cfg with
                | .err e s2 => .err e s2
                | .ok () s2 =>
                  let s3 := { s2 with working :=
                    (s2.working.updateExperiment cfg.experiment_id
                      (update_experiment_fields cfg)) }
                  .ok () (commit s3)

/-- The per-experiment loop of `_apply_layer_config` (lines 42-47),
including the `layer_id` cross-check. -/
def apply_experiment_configs (layer : Layer) (layer_id : String) :
    List ExperimentConfig → Sess → Res Unit
  | [], s => .ok () s
  | cfg :: rest, s =>
    if cfg.layer_id ≠ layer_id then
      .err (.valueError "experiment layer_id does not match layer") s
    else
      match apply_experiment_config s layer cfg with
      | .err e s1 => .err e s1
      | .ok _ s1 => apply_experiment_configs layer layer_id rest s1

/-- `_apply_layer_config` from `services/config_sync.py`. -/
def apply_layer_config (s : Sess) (lc : LayerConfig) : Res Unit :=
  if truthySlots lc.slots then
    .err (.valueError "slots config is not supported in sync") s
  else
    match s.working.getLayer lc.layer_id with
    | none =>
      match create_layer s lc.layer_id lc.layer_salt lc.total_slots
          lc.total_traffic_percentage with
      | .err e s1 => .err e s1
      | .ok layer s1 => apply_experiment_configs layer lc.layer_id lc.experiments s1
    | some layer =>
      if layer.layer_salt ≠ lc.layer_salt then
        .err (.valueError "layer_salt mismatch") s
      else if layer.total_slots ≠ lc.total_slots then
        .err (.valueError "total_slots mismatch") s
      else if layer.total_traffic_percentage ≠ lc.total_traffic_percentage then
        let layer1 := { layer with
          total_traffic_percentage := lc.total_traffic_percentage }
        let s1 := commit { s with working := { s.working with
          layers := s.working.layers.map fun l =>
            if l.layer_id == layer.layer_id then
              { l with total_traffic_percentage := lc.total_traffic_percentage }
            else l } }
        apply_experiment_configs layer1 lc.layer_id lc.experiments s1
      else
        apply_experiment_configs layer lc.layer_id lc.experiments s

/-- `apply_layer_configs` from `services/config_sync.py`. -/
def apply_layer_configs : List LayerConfig → Sess → Res Unit
  | [], s => .ok () s
  | lc :: rest, s =>
    match apply_layer_config s lc with
    | .err e s1 => .err e s1
    | .ok _ s1 => apply_layer_configs rest s1


/-- `normalize_allocations` from `services/splitter.py`.  At the point
where Python reads `allocation_map[variant]` every variant is known to be
a key, so the `getD 0` default is never used. -/
def normalize_allocations (variants : List String)
    (allocation_map : Option AllocMap) : Except Err (List ℚ) :=
  if variants = [] then
    .error (.valueError "Variants required for allocation normalization")
  else
    match allocation_map with
    | none => .error (.valueError "allocations must be provided")
    | some m =>
      let missing := variants.filter fun v => (lookupKey m v).isNone
      let extra := (m.map (·.1)).filter fun k => ! variants.contains k
      if missing ≠ [] ∨ extra ≠ [] then
        .error (.valueError "allocation keys must match variants")
      else
        let values := variants.map fun v => (lookupKey m v).getD 0
        if values.any fun v => decide (v < 0) then
          .error (.valueError "allocations must be non-negative")
        else if values.sum ≤ 0 then
          .error (.valueError "allocations must sum to > 0")
        else if |values.sum - 1| ≤ tol6 then
          .ok values
        else
          .error (.valueError "allocations must sum to 1.0")

/-- `_validate_allocation_map` from `models/config_models.py` (values are
already floats in the model, so the numeric-conversion guard is exact). -/
def validate_allocation_map (variants : List String)
    (allocation_map : AllocMap) : Except Err Unit :=
  let missing := variants.filter fun v => (lookupKey allocation_map v).isNone
  let extra := (allocation_map.map (·.1)).filter fun k => ! variants.contains k
  if missing ≠ [] ∨ extra ≠ [] then
    .error (.valueError "allocation keys must match variants")
  else
    let values := variants.map fun v => (lookupKey allocation_map v).getD 0
    if values.any fun v => decide (v < 0) then
      .error (.valueError "allocation must be non-negative")
    else if |values.sum - 1| > tol6 then
      .error (.valueError "allocation must sum to 1.0")
    else
      .ok ()

/-- The cumulative-boundary list built by the splitters (`buckets` with a
running `cumulative`), with Python `zip` truncation semantics. -/
def buildBuckets : List String → List ℚ → ℚ → List (String × ℚ)
  | v :: vs, a :: rest, c => (v, c + a) :: buildBuckets vs rest (c + a)
  | _, _, _ => []

/-- The selection loop: the first variant whose cumulative boundary
exceeds the hash point. -/
def firstBucket (val : ℚ) : List (String × ℚ) → Option String
  | [] => none
  | (v, b) :: rest => if val < b then some v else firstBucket val rest

/-- `HashBasedSplitter.assign_variant` from `services/splitter.py`,
parameterised by the external `hashlib.md5` digest (as an arbitrary
function to `Nat`; `int(digest, 16) / 2**128` becomes `% 2^128 / 2^128`,
exact since an md5 digest is below `2^128`). -/
def hash_assign_variant (md5 : String → Nat) (exp_id unit_id : String)
    (variants : List String) (allocations : List ℚ) : Except Err String :=
  if variants = [] ∨ variants.length ≠ allocations.length then
    .error (.valueError "Variants and allocations must have the same length")
  else if |allocations.sum - 1| > tol6 then
    .error (.valueError "Allocations must sum to 1.0")
  else
    let val : ℚ := ((md5 (unit_id ++ exp_id) % 2 ^ 128 : ℕ) : ℚ) / 2 ^ 128
    match firstBucket val (buildBuckets variants allocations 0) with
    | some v => .ok v
    | none => .ok (variants.getLastD "")

/-- `AssignmentService._calculate_user_slot` from
`services/assignment_service.py` (md5 abstracted as above). -/
def calculate_user_slot (md5 : String → Nat) (layer_salt : String)
    (total_slots : Nat) (unit_id : String) : Nat :=
  md5 (unit_id ++ layer_salt) % total_slots

/-- The slot row with the given layer and index. -/
def DB.slotAt (db : DB) (L : String) (idx : Nat) : Option LayerSlot :=
  db.slots.find? fun s => s.layer_id == L && s.slot_index == idx

/-- The active experiment of the slot with the given layer and index. -/
def DB.activeAt (db : DB) (L : String) (idx : Nat) : Option String :=
  (db.slotAt L idx).bind (·.experiment_id)

/-- The variant computed for a unit inside an experiment on the hash
path of `assign_for_layer`: `normalize_allocations(variants,
get_traffic_dict())` followed by `HashBasedSplitter.assign_variant`. -/
def variant_for (md5 : String → Nat) (e : Experiment) (unit_id : String) :
    Except Err String :=
  match normalize_allocations e.variants (some e.traffic_allocation) with
  | .error er => .error er
  | .ok allocations =>
    hash_assign_variant md5 e.experiment_id unit_id e.variants allocations

/-- The deterministic `(experiment_id, variant)` mapping of
`assign_for_layer` for a unit: hash the unit to a slot, read the slot's
active experiment, and compute the hash-splitter variant from the stored
experiment record.  (The `is_active` serving gate, which only decides
between the `assigned` and `experiment_inactive` statuses, is not part of
this mapping.) -/
def assigned_pair (md5 : String → Nat) (db : DB) (layer : Layer)
    (unit_id : String) : Option (String × Except Err String) :=
  let slot_index := calculate_user_slot md5 layer.layer_salt layer.total_slots unit_id
  match db.activeAt layer.layer_id slot_index with
  | none => none
  | some eid =>
    match db.getExperiment eid with
    | none => none
    | some e => some (eid, variant_for md5 e unit_id)

/-- `SRMResult` from `srm_tester.py` (floats as `ℚ`). -/
structure SRMResult where
  chi2_stat : ℚ
  p_value : ℚ
  degrees_of_freedom : Nat
  severity : String
  reject_null : Bool
  observed_counts : List Int
  expected_counts : List ℚ
  expected_proportions : List ℚ
  total_sample_size : Int
deriving DecidableEq, Repr

/-- `SRMTester._classify_severity` from `srm_tester.py`. -/
def classify_severity (p_value : ℚ) : String :=
  if p_value ≤ 1 / 1000 then "***"
  else if p_value ≤ 1 / 100 then "**"
  else if p_value ≤ 1 / 20 then "*"
  else if p_value ≤ 1 / 10 then "."
  else ""

/-- `SRMTester.test` from `srm_tester.py`, parameterised by the external
`scipy.stats.chisquare` (returning the pair `(chi2_stat, p_value)`). -/
def srm_test (alpha : ℚ) (chisquare : List Int → List ℚ → ℚ × ℚ)
    (observed_counts : List Int) (expected_proportions : Option (List ℚ)) :
    Except Err SRMResult :=
  if observed_counts.length < 2 then
    .error (.valueError "Need at least 2 groups for SRM test")
  else if observed_counts.any fun c => decide (c < 0) then
    .error (.valueError "Observed counts must be non-negative")
  else
    let expected : List ℚ :=
      match expected_proportions with
      | none => observed_counts.map fun _ => 1 / (observed_counts.length : ℚ)
      | some ps => ps.map fun p => p / ps.sum
    if expected.length ≠ observed_counts.length then
      .error (.valueError "Expected proportions must match number of groups")
    else
      let total_sample_size := observed_counts.sum
      let expected_counts := expected.map fun p => p * (total_sample_size : ℚ)
      let r := chisquare observed_counts expected_counts
      .ok
        { chi2_stat := r.1
          p_value := r.2
          degrees_of_freedom := observed_counts.length - 1
          severity := classify_severity r.2
          reject_null := decide (r.2 < alpha)
          observed_counts := observed_counts
          expected_counts := expected_counts
          expected_proportions := expected
          total_sample_size := total_sample_size }


namespace Lit

/-- The literal `ExperimentConfig` schema of `models/config_models.py`:
exactly the fields the pydantic model declares.  In particular there is
no `reserved_percentage` field. -/
structure ExperimentConfig where
  experiment_id : String
  layer_id : String
  name : String
  variants : List String
  traffic_allocation : AllocMap
  status : ExperimentStatus
  start_date : Option Int
  end_date : Option Int
  segment_allocations : Option AllocTable
  geo_allocations : Option AllocTable
  stratum_allocations : Option AllocTable
  splitter_type : String
  traffic_percentage : ℚ
  priority : Int
deriving DecidableEq, Repr

/-- The Python attribute access `experiment_config.reserved_percentage`
on the literal schema: pydantic models raise `AttributeError` for
attributes they do not define. -/
def ExperimentConfig.reservedPercentageRead (_ : ExperimentConfig) :
    Except Err ℚ :=
  .error (.attributeError "reserved_percentage")

/-- `_build_experiment` over the literal schema: evaluating the keyword
arguments reads `experiment_config.reserved_percentage` and raises. -/
def build_experiment (cfg : ExperimentConfig) : Except Err Experiment :=
  match cfg.reservedPercentageRead with
  | .error e => .error e
  | .ok rp =>
    .ok
      { experiment_id := cfg.experiment_id, layer_id := cfg.layer_id,
        name := cfg.name, variants := cfg.variants,
        traffic_allocation := cfg.traffic_allocation,
        status := cfg.status, start_date := cfg.start_date,
        end_date := cfg.end_date,
        segment_allocations := cfg.segment_allocations,
        geo_allocations := cfg.geo_allocations,
        stratum_allocations := cfg.stratum_allocations,
        splitter_type := cfg.splitter_type,
        traffic_percentage := cfg.traffic_percentage,
        reserved_percentage := rp,
        priority := cfg.priority }

/-- `_validate_experiment_immutables` over the literal schema (it reads
no `reserved_percentage`). -/
def validate_experiment_immutables (existing : Experiment)
    (cfg : ExperimentConfig) : Except Err Unit :=
  if existing.layer_id ≠ cfg.layer_id then
    .error (.valueError "layer_id cannot be changed")
  else if existing.splitter_type ≠ cfg.splitter_type then
    .error (.valueError "splitter_type cannot be changed")
  else if existing.variants ≠ cfg.variants then
    .error (.valueError "variants cannot be changed")
  else if ¬ allocTableEq existing.get_segment_allocations
      (normalize_allocations_optional cfg.segment_allocations) then
    .error (.valueError "segment_allocations cannot be changed")
  else if ¬ allocTableEq existing.get_geo_allocations
      (normalize_allocations_optional cfg.geo_allocations) then
    .error (.valueError "geo_allocations cannot be changed")
  else if ¬ allocTableEq existing.get_stratum_allocations
      (normalize_allocations_optional cfg.stratum_allocations) then
    .error (.valueError "stratum_allocations cannot be changed")
  else if ¬ allocEq existing.traffic_allocation cfg.traffic_allocation then
    if is_winner_allocation cfg.variants cfg.traffic_allocation then
      .error (.valueError "winner allocation is allowed only when status is completed")
    else
      .error (.valueError "traffic_allocation cannot be changed")
  else
    .ok ()

/-- `_validate_traffic_percentage_change` over the literal schema: the
second comparison (line 214 of `config_sync.py`) reads
`experiment_config.reserved_percentage` and raises. -/
def validate_traffic_percentage_change (existing : Experiment)
    (cfg : ExperimentConfig) : Except Err Unit :=
  if cfg.traffic_percentage < existing.traffic_percentage - tol9 then
    .error (.valueError "traffic_percentage cannot decrease")
  else
    match cfg.reservedPercentageRead with
    | .error e => .error e
    | .ok rp =>
      if cfg.traffic_percentage > rp + tol9 then
        .error (.valueError "traffic_percentage cannot exceed reserved_percentage")
      else
        .ok ()

/-- `_validate_reserved_percentage_change` over the literal schema: the
first comparison (line 182 of `config_sync.py`) reads
`experiment_config.reserved_percentage` and raises. -/
def validate_reserved_percentage_change (db : DB) (layer : Layer)
    (existing : Experiment) (cfg : ExperimentConfig) : Except Err Unit :=
  match cfg.reservedPercentageRead with
  | .error e => .error e
  | .ok rp =>
    if rp < existing.reserved_percentage - tol9 then
      .error (.valueError "reserved_percentage cannot decrease")
    else if rp + tol9 < cfg.traffic_percentage then
      .error (.valueError "reserved_percentage must be >= traffic_percentage")
    else
      let total_other :=
        ((db.experiments.filter fun e =>
            e.layer_id == layer.layer_id &&
              e.experiment_id != existing.experiment_id &&
              e.status != ExperimentStatus.completed).map
          (·.reserved_percentage)).sum
      if total_other + rp > layer.total_traffic_percentage + tol9 then
        .error (.valueError "reserved_percentage exceeds layer capacity")
      else
        .ok ()

/-- `_apply_reservation_slots` over the literal schema: line 221 reads
`experiment_config.reserved_percentage` and raises. -/
def apply_reservation_slots (s : Sess) (layer : Layer) (existing : Experiment)
    (cfg : ExperimentConfig) : Res Unit :=
  match cfg.reservedPercentageRead with
  | .error e => .err e s
  | .ok rp =>
    let db := s.working
    let desired_slots : ℤ := ⌈rp * (layer.total_slots : ℚ)⌉
    let current_slots : ℤ := db.countReservedSlots layer.layer_id existing.experiment_id
    if desired_slots < current_slots then
      .err (.valueError "reserved_percentage cannot decrease") s
    else
      let additional_slots := desired_slots - current_slots
      if additional_slots ≤ 0 then .ok () s
      else
        let free_slots := (db.freeSlotIdxs layer.layer_id).take additional_slots.toNat
        if free_slots.length < additional_slots.toNat then
          .err (.valueError "insufficient free slots for reservation") s
        else
          .ok () { s with working :=
            db.reserveSlots layer.layer_id existing.experiment_id free_slots }

/-- `_apply_ramp_up_slots` over the literal schema (it reads only
`traffic_percentage`, which the schema has). -/
def apply_ramp_up_slots (s : Sess) (layer : Layer) (existing : Experiment)
    (cfg : ExperimentConfig) : Res Unit :=
  let db := s.working
  let desired_slots : ℤ := ⌈cfg.traffic_percentage * (layer.total_slots : ℚ)⌉
  let current_slots : ℤ := db.countActiveSlots layer.layer_id existing.experiment_id
  if desired_slots < current_slots then
    .err (.valueError "traffic_percentage cannot decrease") s
  else
    let additional_slots := desired_slots - current_slots
    if additional_slots ≤ 0 then .ok () s
    else
      let free_reserved_slots :=
        (db.freeReservedSlotIdxs layer.layer_id existing.experiment_id).take
          additional_slots.toNat
      if free_reserved_slots.length < additional_slots.toNat then
        .err (.valueError "insufficient reserved slots for ramp up") s
      else
        .ok () { s with working :=
          db.rampUpSlots layer.layer_id existing.experiment_id free_reserved_slots }

/-- `_update_experiment` over the literal schema: the assignment at line
167 reads `experiment_config.reserved_percentage` and raises (the
preceding assignments have already mutated the row in the session). -/
def update_experiment_row (cfg : ExperimentConfig) (e : Experiment) :
    Except Err Experiment :=
  match cfg.reservedPercentageRead with
  | .error er => .error er
  | .ok rp =>
    .ok { e with
      name := cfg.name,
      traffic_allocation := cfg.traffic_allocation,
      status := cfg.status,
      start_date := cfg.start_date,
      end_date := cfg.end_date,
      segment_allocations := cfg.segment_allocations,
      geo_allocations := cfg.geo_allocations,
      stratum_allocations := cfg.stratum_allocations,
      traffic_percentage := cfg.traffic_percentage,
      reserved_percentage := rp,
      priority := cfg.priority }

/-- The `status == "completed"` branch of `_apply_experiment_config` over
the literal schema (lines 52-83; it reads no `reserved_percentage`). -/
def apply_completed_config (s : Sess) (layer : Layer) (cfg : ExperimentConfig) :
    Res Unit :=
  match s.working.getExperiment cfg.experiment_id with
  | none => .ok () s
  | some existing =>
    if existing.layer_id ≠ cfg.layer_id then
      .err (.valueError "layer_id cannot be changed") s
    else if existing.splitter_type ≠ cfg.splitter_type then
      .err (.valueError "splitter_type cannot be changed") s
    else if existing.variants ≠ cfg.variants then
      .err (.valueError "variants cannot be changed") s
    else if ¬ allocTableEq existing.get_segment_allocations
        (normalize_allocations_optional cfg.segment_allocations) then
      .err (.valueError "segment_allocations cannot be changed") s
    else if ¬ allocTableEq existing.get_geo_allocations
        (normalize_allocations_optional cfg.geo_allocations) then
      .err (.valueError "geo_allocations cannot be changed") s
    else if ¬ allocTableEq existing.get_stratum_allocations
        (normalize_allocations_optional cfg.stratum_allocations) then
      .err (.valueError "stratum_allocations cannot be changed") s
    else if ¬ allocEq existing.traffic_allocation cfg.traffic_allocation then
      if ¬ is_winner_allocation cfg.variants cfg.traffic_allocation then
        .err (.valueError "traffic_allocation can only change to a winner allocation when status is completed") s
      else
        let s1 := { s with working := (s.working.updateExperiment cfg.experiment_id
          (fun e => { e with traffic_allocation := cfg.traffic_allocation })) }
        match remove_experiment s1 layer cfg.experiment_id with
        | .ok _ s2 => .ok () s2
        | .err e s2 => .err e s2
    else
      match remove_experiment s layer cfg.experiment_id with
      | .ok _ s2 => .ok () s2
      | .err e s2 => .err e s2

/-- `_apply_experiment_config` over the literal schema.  On the
new-experiment path `_build_experiment` raises before `add_experiment`
is called; on the update path the validators raise before any slot
mutation. -/
def apply_experiment_config (s : Sess) (layer : Layer) (cfg : ExperimentConfig) :
    Res Unit :=
  if cfg.status = ExperimentStatus.completed then
    apply_completed_config s layer cfg
  else
    match s.working.getExperiment cfg.experiment_id with
    | none =>
      match build_experiment cfg with
      | .error e => .err e s
      | .ok experiment =>
        match add_experiment s layer experiment with
        | .ok true s1 => .ok () s1
        | .ok false s1 => .err (.valueError "failed to add experiment") s1
        | .err e s1 => .err e s1
    | some existing =>
      if existing.status = ExperimentStatus.completed then
        .err (.valueError "experiment is completed and cannot be modified") s
      else
        match validate_experiment_immutables existing cfg with
        | .error e => .err e s
        | .ok () =>
          match validate_traffic_percentage_change existing cfg with
          | .error e => .err e s
          | .ok () =>
            match validate_reserved_percentage_change s.working layer existing cfg with
            | .error e => .err e s
            | .ok () =>
              match apply_reservation_slots s layer existing cfg with
              | .err e s1 => .err e s1
              | .ok () s1 =>
                match apply_ramp_up_slots s1 layer existing cfg with
                | .err e s2 => .err e s2
                | .ok () s2 =>
                  match update_experiment_row cfg existing with
                  | .error e => .err e s2
                  | .ok row =>
                    let s3 := { s2 with working :=
                      (s2.working.updateExperiment cfg.experiment_id (fun _ => row)) }
                    .ok () (commit s3)

end Lit


/-
Batteries marks the `Rat` arithmetic operations `@[irreducible]` as an
elaboration hint.  Re-marking them `semireducible` locally lets `decide`
evaluate concrete rational arithmetic; it does not change any definition
or proof, only unfolding behaviour inside this file.
-/
attribute [local semireducible] Rat.add Rat.mul Rat.inv Rat.sub Rat.ofScientific

/-- Helper: `Lit.validate_traffic_percentage_change` never succeeds,
because its second comparison reads the missing attribute. -/
theorem lit_vtpc_never_ok (existing : Experiment) (cfg : Lit.ExperimentConfig) :
    ∃ e, Lit.validate_traffic_percentage_change existing cfg = .error e := by
  unfold Lit.validate_traffic_percentage_change
  split
  · exact ⟨_, rfl⟩
  · exact ⟨_, rfl⟩

/-- C10: for every `ExperimentConfig` whose status is not `completed`,
applying it through the literal Config Synchronizer raises an error and
leaves the session (in particular the layer's slots) unchanged: the
pydantic `ExperimentConfig` schema defines no `reserved_percentage`
field and the `Experiment` model maps no such column, and
`_build_experiment` (new-experiment path) resp. the percentage
validators (update path) read that attribute before any slot mutation is
committed. -/
theorem lit_apply_non_completed_config_raises (s : Sess) (layer : Layer)
    (cfg : Lit.ExperimentConfig) (h : cfg.status ≠ ExperimentStatus.completed) :
    ∃ e, Lit.apply_experiment_config s layer cfg = .err e s := by
  unfold Lit.apply_experiment_config
  rw [if_neg h]
  cases hex : s.working.getExperiment cfg.experiment_id with
  | none =>
    simp only [Lit.build_experiment, Lit.ExperimentConfig.reservedPercentageRead]
    exact ⟨_, rfl⟩
  | some existing =>
    by_cases hc : existing.status = ExperimentStatus.completed
    · simp only [if_pos hc]
      exact ⟨_, rfl⟩
    · simp only [if_neg hc]
      cases him : Lit.validate_experiment_immutables existing cfg with
      | error e => exact ⟨e, rfl⟩
      | ok u =>
        obtain ⟨e, he⟩ := lit_vtpc_never_ok existing cfg
        rw [he]
        exact ⟨e, rfl⟩

/-- Concrete scenario for the C10 witness: an active config for a fresh
experiment in an empty store. -/
def c10cfg : Lit.ExperimentConfig :=
  { experiment_id := "exp_a", layer_id := "layer_1", name := "A/B",
    variants := ["A", "B"], traffic_allocation := [("A", 0.5), ("B", 0.5)],
    status := .active, start_date := none, end_date := none,
    segment_allocations := none, geo_allocations := none,
    stratum_allocations := none, splitter_type := "hash",
    traffic_percentage := 0.3, priority := 0 }

/-- Concrete layer for witnesses. -/
def wLayer : Layer :=
  { layer_id := "layer_1", layer_salt := "salt_1", total_slots := BUCKET_SPACE,
    total_traffic_percentage := 1 }

/-- Empty store session. -/
def emptySess : Sess :=
  { persisted := { layers := [], slots := [], experiments := [] },
    working := { layers := [], slots := [], experiments := [] } }

/-- Witness for C10 at a concrete input. -/
theorem lit_apply_non_completed_config_raises_witness :
    ∃ e, Lit.apply_experiment_config emptySess wLayer c10cfg = .err e emptySess :=
  lit_apply_non_completed_config_raises emptySess wLayer c10cfg (by decide)


/-- Helper: threshold characterisation of `classify_severity`. -/
theorem classify_severity_cases (p : ℚ) :
    (classify_severity p = "***" ↔ p ≤ 1 / 1000) ∧
    (classify_severity p = "**" ↔ 1 / 1000 < p ∧ p ≤ 1 / 100) ∧
    (classify_severity p = "*" ↔ 1 / 100 < p ∧ p ≤ 1 / 20) ∧
    (classify_severity p = "." ↔ 1 / 20 < p ∧ p ≤ 1 / 10) ∧
    (classify_severity p = "" ↔ 1 / 10 < p) := by
  unfold classify_severity
  split_ifs with h1 h2 h3 h4 <;>
    push_neg at * <;>
    refine ⟨?_, ?_, ?_, ?_, ?_⟩ <;>
    simp <;>
    first
      | linarith
      | (constructor <;> linarith)
      | (intro hx; linarith)

/-- C9: on every valid input (at least 2 groups, all observed counts
≥ 0, and — when given — as many expected proportions as groups),
`SRMTester.test` succeeds, its `reject_null` is true exactly when the
computed p-value (returned by the external `scipy.stats.chisquare`) is
strictly below `alpha`, and its severity code is classified exactly by
the thresholds `p ≤ 0.001 → "***"`, `0.001 < p ≤ 0.01 → "**"`,
`0.01 < p ≤ 0.05 → "*"`, `0.05 < p ≤ 0.1 → "."`, `0.1 < p → ""`. -/
theorem srm_test_classification (alpha : ℚ)
    (chisquare : List Int → List ℚ → ℚ × ℚ)
    (observed_counts : List Int) (expected_proportions : Option (List ℚ))
    (hgroups : 2 ≤ observed_counts.length)
    (hnn : ∀ c ∈ observed_counts, 0 ≤ c)
    (hlen : ∀ ps, expected_proportions = some ps →
      ps.length = observed_counts.length) :
    ∃ r, srm_test alpha chisquare observed_counts expected_proportions = .ok r ∧
      r.p_value = (chisquare observed_counts r.expected_counts).2 ∧
      (r.reject_null = true ↔ r.p_value < alpha) ∧
      (r.severity = "***" ↔ r.p_value ≤ 1 / 1000) ∧
      (r.severity = "**" ↔ 1 / 1000 < r.p_value ∧ r.p_value ≤ 1 / 100) ∧
      (r.severity = "*" ↔ 1 / 100 < r.p_value ∧ r.p_value ≤ 1 / 20) ∧
      (r.severity = "." ↔ 1 / 20 < r.p_value ∧ r.p_value ≤ 1 / 10) ∧
      (r.severity = "" ↔ 1 / 10 < r.p_value) := by
  unfold srm_test
  rw [if_neg (by omega)]
  rw [if_neg (by
    simp only [List.any_eq_true, decide_eq_true_eq, not_exists, not_and, not_lt]
    intro c hc
    exact hnn c hc)]
  cases hps : expected_proportions with
  | none =>
    rw [if_neg (by simp)]
    refine ⟨_, rfl, rfl, ?_, ?_, ?_, ?_, ?_, ?_⟩
    · simp
    · exact (classify_severity_cases _).1
    · exact (classify_severity_cases _).2.1
    · exact (classify_severity_cases _).2.2.1
    · exact (classify_severity_cases _).2.2.2.1
    · exact (classify_severity_cases _).2.2.2.2
  | some ps =>
    rw [if_neg (by simp [hlen ps hps])]
    refine ⟨_, rfl, rfl, ?_, ?_, ?_, ?_, ?_, ?_⟩
    · simp
    · exact (classify_severity_cases _).1
    · exact (classify_severity_cases _).2.1
    · exact (classify_severity_cases _).2.2.1
    · exact (classify_severity_cases _).2.2.2.1
    · exact (classify_severity_cases _).2.2.2.2


/-- Witness for C9 at a concrete input (`alpha = 0.05`, scipy returning
p-value `0.03`). -/
theorem srm_test_classification_witness :
    ∃ r, srm_test (1 / 20) (fun _ _ => (2, 3 / 100)) [4950, 5050] none = .ok r ∧
      r.p_value = ((fun (_ : List Int) (_ : List ℚ) => ((2 : ℚ), (3 : ℚ) / 100))
        [4950, 5050] r.expected_counts).2 ∧
      (r.reject_null = true ↔ r.p_value < 1 / 20) ∧
      (r.severity = "***" ↔ r.p_value ≤ 1 / 1000) ∧
      (r.severity = "**" ↔ 1 / 1000 < r.p_value ∧ r.p_value ≤ 1 / 100) ∧
      (r.severity = "*" ↔ 1 / 100 < r.p_value ∧ r.p_value ≤ 1 / 20) ∧
      (r.severity = "." ↔ 1 / 20 < r.p_value ∧ r.p_value ≤ 1 / 10) ∧
      (r.severity = "" ↔ 1 / 10 < r.p_value) :=
  srm_test_classification (1 / 20) (fun _ _ => (2, 3 / 100)) [4950, 5050] none
    (by decide) (by decide) (fun ps h => by cases h)


/-- C7: `add_experiment` fails softly on capacity: when the layer's
reserved-percentage budget would be exceeded, or fewer unreserved slots
exist than `ceil(reserved_percentage * total_slots)`, it returns `False`
without raising, and the session — in particular every slot's ownership
fields — is unchanged. -/
theorem add_experiment_capacity_soft_failure (s : Sess) (layer : Layer)
    (experiment : Experiment)
    (hlid : experiment.layer_id = layer.layer_id)
    (hrt : ¬ experiment.reserved_percentage < experiment.traffic_percentage - tol9)
    (hcap : s.working.layerReservedSum layer.layer_id + experiment.reserved_percentage >
        layer.total_traffic_percentage + tol9 ∨
      (s.working.freeSlotIdxs layer.layer_id).length <
        (⌈experiment.reserved_percentage * (layer.total_slots : ℚ)⌉).toNat) :
    add_experiment s layer experiment = .ok false s := by
  unfold add_experiment
  rw [if_neg (by simp [hlid]), if_neg hrt]
  by_cases hc : s.working.layerReservedSum layer.layer_id +
      experiment.reserved_percentage > layer.total_traffic_percentage + tol9
  · rw [if_pos hc]
  · rw [if_neg hc]
    have hfree : ((s.working.freeSlotIdxs layer.layer_id).take
        (⌈experiment.reserved_percentage * (layer.total_slots : ℚ)⌉).toNat).length <
        (⌈experiment.reserved_percentage * (layer.total_slots : ℚ)⌉).toNat := by
      rcases hcap with hcap | hcap
      · exact absurd hcap hc
      · rw [List.length_take]; omega
    rw [if_pos hfree]

/-- A layer of `n` empty slots, as `create_layer` produces them. -/
def mkFreeSlots (L : String) (n : Nat) : List LayerSlot :=
  (List.range n).map fun i =>
    { layer_id := L, slot_index := i, experiment_id := none,
      reserved_experiment_id := none }

/-- Session holding one freshly created 100-slot layer. -/
def oneLayerSess : Sess :=
  { persisted :=
      { layers := [wLayer], slots := mkFreeSlots "layer_1" 100, experiments := [] },
    working :=
      { layers := [wLayer], slots := mkFreeSlots "layer_1" 100, experiments := [] } }

/-- An over-budget experiment (200% reservation) for the C7 witness. -/
def c7exp : Experiment :=
  { experiment_id := "exp_big", layer_id := "layer_1", name := "big",
    variants := ["A", "B"], traffic_allocation := [("A", 0.5), ("B", 0.5)],
    start_date := none, end_date := none, segment_allocations := none,
    geo_allocations := none, stratum_allocations := none,
    splitter_type := "hash", traffic_percentage := 1, reserved_percentage := 2,
    status := .active, priority := 0 }

/-- Witness for C7 at a concrete input. -/
theorem add_experiment_capacity_soft_failure_witness :
    add_experiment oneLayerSess wLayer c7exp = .ok false oneLayerSess :=
  add_experiment_capacity_soft_failure oneLayerSess wLayer c7exp rfl
    (by decide) (Or.inl (by decide))


/-- Helper: if `_validate_traffic_percentage_change` succeeds, the target
traffic percentage did not decrease. -/
theorem vtpc_ok_not_decrease (ex : Experiment) (cfg : ExperimentConfig) (u : Unit)
    (h : validate_traffic_percentage_change ex cfg = .ok u) :
    ¬ cfg.traffic_percentage < ex.traffic_percentage - tol9 := by
  intro hlt
  unfold validate_traffic_percentage_change at h
  rw [if_pos hlt] at h
  exact Except.noConfusion h

/-- Helper: `_validate_reserved_percentage_change` rejects a reserved
percentage decrease. -/
theorem vrpc_error_of_decrease (db : DB) (layer : Layer) (existing : Experiment)
    (cfg : ExperimentConfig)
    (h : cfg.reserved_percentage < existing.reserved_percentage - tol9) :
    ∃ e, validate_reserved_percentage_change db layer existing cfg = .error e := by
  unfold validate_reserved_percentage_change
  rw [if_pos h]
  exact ⟨_, rfl⟩

/-- C5 (amended): for an existing non-completed experiment, applying a
config with target status other than `completed` whose
`traffic_percentage` or `reserved_percentage` is lower (beyond the 1e-9
tolerance) than the stored value raises a hard error and leaves the
session — slots and experiment record — unchanged.  (The
`status = "completed"` case is excluded: see the counterexample.) -/
theorem monotonicity_rejection (s : Sess) (layer : Layer) (existing : Experiment)
    (cfg : ExperimentConfig)
    (hex : s.working.getExperiment cfg.experiment_id = some existing)
    (hesc : existing.status ≠ ExperimentStatus.completed)
    (hcs : cfg.status ≠ ExperimentStatus.completed)
    (hdec : cfg.traffic_percentage < existing.traffic_percentage - tol9 ∨
            cfg.reserved_percentage < existing.reserved_percentage - tol9) :
    ∃ e, apply_experiment_config s layer cfg = .err e s := by
  unfold apply_experiment_config
  rw [if_neg hcs, hex]
  simp only [if_neg hesc]
  cases him : validate_experiment_immutables existing cfg with
  | error e => exact ⟨e, rfl⟩
  | ok u =>
    cases htp : validate_traffic_percentage_change existing cfg with
    | error e => exact ⟨e, rfl⟩
    | ok u2 =>
      have hres : cfg.reserved_percentage < existing.reserved_percentage - tol9 := by
        rcases hdec with hdec | hdec
        · exact absurd hdec (vtpc_ok_not_decrease existing cfg u2 htp)
        · exact hdec
      obtain ⟨e, he⟩ := vrpc_error_of_decrease s.working layer existing cfg hres
      rw [he]
      exact ⟨e, rfl⟩

/-- Slots of a 100-slot layer whose first 50 slots are reserved for and
actively serving `exp_a`. -/
def halfSlots : List LayerSlot :=
  (List.range 100).map fun i =>
    if i < 50 then
      { layer_id := "layer_1", slot_index := i, experiment_id := some "exp_a",
        reserved_experiment_id := some "exp_a" }
    else
      { layer_id := "layer_1", slot_index := i, experiment_id := none,
        reserved_experiment_id := none }

/-- Stored experiment at `traffic_percentage = 0.5`. -/
def c5exp : Experiment :=
  { experiment_id := "exp_a", layer_id := "layer_1", name := "A/B",
    variants := ["A", "B"], traffic_allocation := [("A", 0.5), ("B", 0.5)],
    start_date := none, end_date := none, segment_allocations := none,
    geo_allocations := none, stratum_allocations := none,
    splitter_type := "hash", traffic_percentage := 0.5,
    reserved_percentage := 0.5, status := .active, priority := 0 }

/-- Session with `exp_a` live on half of the layer. -/
def c5s : Sess :=
  { persisted := { layers := [wLayer], slots := halfSlots, experiments := [c5exp] },
    working := { layers := [wLayer], slots := halfSlots, experiments := [c5exp] } }

/-- A config for `exp_a` with a lower `traffic_percentage` (0.1 < 0.5)
and target status `completed`. -/
def c5cfgCompleted : ExperimentConfig :=
  { experiment_id := "exp_a", layer_id := "layer_1", name := "A/B",
    variants := ["A", "B"], traffic_allocation := [("A", 0.5), ("B", 0.5)],
    status := .completed, start_date := none, end_date := none,
    segment_allocations := none, geo_allocations := none,
    stratum_allocations := none, splitter_type := "hash",
    traffic_percentage := 0.1, reserved_percentage := 0.1, priority := 0 }

/-- Counterexample to C5 as stated: for the existing non-completed
experiment `exp_a` (stored `traffic_percentage = 0.5`), applying the
config `c5cfgCompleted` with the lower `traffic_percentage = 0.1`
raises no error at all and does change the layer's state — the
`status = "completed"` path ignores the percentage monotonicity checks. -/
theorem monotonicity_rejection_counterexample :
    c5exp.status ≠ ExperimentStatus.completed ∧
    c5s.working.getExperiment c5cfgCompleted.experiment_id = some c5exp ∧
    c5cfgCompleted.traffic_percentage < c5exp.traffic_percentage - tol9 ∧
    (apply_experiment_config c5s wLayer c5cfgCompleted).isErr = false ∧
    (apply_experiment_config c5s wLayer c5cfgCompleted).sess ≠ c5s := by
  decide

/-- A non-completed config for `exp_a` with a lower `traffic_percentage`. -/
def c5cfgActive : ExperimentConfig :=
  { c5cfgCompleted with status := .active }

/-- Witness for the amended C5 at a concrete input. -/
theorem monotonicity_rejection_witness :
    ∃ e, apply_experiment_config c5s wLayer c5cfgActive = .err e c5s :=
  monotonicity_rejection c5s wLayer c5exp c5cfgActive (by decide) (by decide)
    (by decide) (Or.inl (by decide))


/-- The active-subset-of-reserved slot invariant: a slot serving an
experiment is reserved for that same experiment. -/
def SlotInv (db : DB) : Prop :=
  ∀ sl ∈ db.slots, sl.experiment_id ≠ none →
    sl.reserved_experiment_id = sl.experiment_id

/-- Helper: a `find?` hit also wins under a conjoined predicate it
satisfies. -/
theorem find?_and_of_find? {l : List α} {p q : α → Bool} {a : α}
    (h : l.find? p = some a) (hq : q a = true) :
    l.find? (fun x => p x && q x) = some a := by
  induction l with
  | nil => simp at h
  | cons x xs ih =>
    rw [List.find?_cons] at h ⊢
    cases hp : p x with
    | true =>
      rw [hp] at h
      cases h
      simp [hp, hq]
    | false =>
      rw [hp] at h
      simp only [hp, Bool.false_and]
      exact ih h

/-- Helper: looking up an experiment through `updateExperiment`, when the
update preserves the primary key. -/
theorem getExperiment_updateExperiment (db : DB) (eid k : String)
    (f : Experiment → Experiment)
    (hf : ∀ e, (f e).experiment_id = e.experiment_id) :
    (db.updateExperiment eid f).getExperiment k =
      (db.getExperiment k).map fun e =>
        if e.experiment_id == eid then f e else e := by
  unfold DB.updateExperiment DB.getExperiment
  rw [List.find?_map]
  have hp : ((fun e => e.experiment_id == k) ∘ fun e =>
      if e.experiment_id == eid then f e else e) =
      fun e => e.experiment_id == k := by
    funext e
    by_cases he : (e.experiment_id == eid) = true <;>
      simp [Function.comp, he, hf]
  rw [hp]

/-- Helper: `validate_experiment_immutables` always errors when the
stored and target `traffic_allocation` differ as dicts. -/
theorem immutables_error_of_alloc_change (existing : Experiment)
    (cfg : ExperimentConfig)
    (hne : allocEq existing.traffic_allocation cfg.traffic_allocation = false) :
    ∃ e, validate_experiment_immutables existing cfg = .error e := by
  unfold validate_experiment_immutables
  split_ifs with h1 h2 h3 h4 h5 h6 h7 h8 <;>
    first
      | exact ⟨_, rfl⟩
      | (exfalso; rw [h7] at hne; exact Bool.noConfusion hne)

/-- Helper: `remove_experiment` when the experiment row is found. -/
theorem remove_experiment_found (s : Sess) (layer : Layer) (eid : String)
    (ex : Experiment)
    (hfind : s.working.experiments.find? (fun e =>
      e.experiment_id == eid && e.layer_id == layer.layer_id) = some ex) :
    remove_experiment s layer eid = .ok true (commit { s with working :=
      ((s.working.freeExperimentSlots layer.layer_id eid).updateExperiment eid
        (fun e => { e with status := .completed })) }) := by
  unfold remove_experiment
  simp only [hfind]

/-- C6 (winner collapse): for an existing experiment whose stored
`traffic_allocation` differs (as a dict) from the config's, (i) the
config is rejected with a hard error, session unchanged, whenever its
target status is not `completed` — winner allocation or not; (ii) the
same allocation change together with `status = "completed"` is accepted
whenever it is a winner allocation and every other immutable matches:
afterwards no slot is reserved for or actively serving the experiment,
and its stored record carries status `completed` and the collapsed
allocation. -/
theorem winner_collapse (s : Sess) (layer : Layer) (existing : Experiment)
    (cfg : ExperimentConfig)
    (hex : s.working.getExperiment cfg.experiment_id = some existing)
    (hne : allocEq existing.traffic_allocation cfg.traffic_allocation = false) :
    (cfg.status ≠ ExperimentStatus.completed →
      ∃ e, apply_experiment_config s layer cfg = .err e s) ∧
    (cfg.status = ExperimentStatus.completed →
      existing.layer_id = cfg.layer_id →
      layer.layer_id = cfg.layer_id →
      existing.splitter_type = cfg.splitter_type →
      existing.variants = cfg.variants →
      allocTableEq existing.get_segment_allocations
        (normalize_allocations_optional cfg.segment_allocations) = true →
      allocTableEq existing.get_geo_allocations
        (normalize_allocations_optional cfg.geo_allocations) = true →
      allocTableEq existing.get_stratum_allocations
        (normalize_allocations_optional cfg.stratum_allocations) = true →
      is_winner_allocation cfg.variants cfg.traffic_allocation = true →
      SlotInv s.working →
      (∀ sl ∈ s.working.slots,
        (sl.reserved_experiment_id = some cfg.experiment_id ∨
          sl.experiment_id = some cfg.experiment_id) →
        sl.layer_id = layer.layer_id) →
      ∃ s', apply_experiment_config s layer cfg = .ok () s' ∧
        (∀ sl ∈ s'.working.slots,
          sl.reserved_experiment_id ≠ some cfg.experiment_id ∧
          sl.experiment_id ≠ some cfg.experiment_id) ∧
        (∃ ex', s'.working.getExperiment cfg.experiment_id = some ex' ∧
          ex'.status = ExperimentStatus.completed ∧
          ex'.traffic_allocation = cfg.traffic_allocation)) := by
  constructor
  · intro hcs
    unfold apply_experiment_config
    rw [if_neg hcs, hex]
    simp only []
    by_cases hc : existing.status = ExperimentStatus.completed
    · simp only [if_pos hc]
      exact ⟨_, rfl⟩
    · simp only [if_neg hc]
      obtain ⟨e, he⟩ := immutables_error_of_alloc_change existing cfg hne
      rw [he]
      exact ⟨e, rfl⟩
  · intro hcs hl1 hl2 hsp hv hseg hgeo hstr hwin hinv hloc
    unfold apply_experiment_config
    rw [if_pos hcs]
    unfold apply_completed_config
    rw [hex]
    simp only [hl1, hsp, hv, hseg, hgeo, hstr, hne, hwin, ne_eq, not_true_eq_false,
      Bool.false_eq_true, not_false_eq_true, if_true, if_false, ite_true, ite_false]
    have hid : (existing.experiment_id == cfg.experiment_id) = true := by
      have h := List.find?_some (p := fun e : Experiment =>
        e.experiment_id == cfg.experiment_id) (l := s.working.experiments)
        (a := existing) hex
      simpa using h
    have hfind : (({ s with working := (s.working.updateExperiment cfg.experiment_id
        (fun e => { e with traffic_allocation := cfg.traffic_allocation })) } :
          Sess).working.experiments.find?
          fun e => e.experiment_id == cfg.experiment_id &&
            e.layer_id == layer.layer_id) =
        some { existing with traffic_allocation := cfg.traffic_allocation } := by
      show ((s.working.updateExperiment cfg.experiment_id
        (fun e => { e with traffic_allocation := cfg.traffic_allocation })).experiments.find?
          fun e => e.experiment_id == cfg.experiment_id &&
            e.layer_id == layer.layer_id) = _
      unfold DB.updateExperiment
      rw [List.find?_map]
      have hbase : s.working.experiments.find?
          ((fun e : Experiment => e.experiment_id == cfg.experiment_id &&
            e.layer_id == layer.layer_id) ∘ fun e : Experiment =>
              if e.experiment_id == cfg.experiment_id then
                { e with traffic_allocation := cfg.traffic_allocation } else e) =
          some existing := by
        have hcomp : ((fun e : Experiment => e.experiment_id == cfg.experiment_id &&
            e.layer_id == layer.layer_id) ∘ fun e : Experiment =>
              if e.experiment_id == cfg.experiment_id then
                { e with traffic_allocation := cfg.traffic_allocation } else e) =
            fun e : Experiment => e.experiment_id == cfg.experiment_id &&
              e.layer_id == layer.layer_id := by
          funext e
          by_cases he : (e.experiment_id == cfg.experiment_id) = true <;>
            simp [Function.comp, he]
        rw [hcomp]
        exact find?_and_of_find? hex (by simp [hl1, hl2])
      rw [hbase]
      have hid2 : existing.experiment_id = cfg.experiment_id := by simpa using hid
      simp [hid2]
    rw [remove_experiment_found _ _ _ _ hfind]
    simp only []
    refine ⟨_, rfl, ?_, ?_⟩
    · intro sl hsl
      simp only [commit, DB.freeExperimentSlots, DB.updateExperiment,
        List.mem_map] at hsl
      obtain ⟨t, ht, rfl⟩ := hsl
      by_cases hcond : (t.layer_id == layer.layer_id &&
          t.reserved_experiment_id == some cfg.experiment_id) = true
      · simp [hcond]
      · simp only [hcond, Bool.false_eq_true, if_false]
        constructor
        · intro hres
          apply hcond
          simp [hres, hloc t ht (Or.inl hres)]
        · intro hact
          have hres := hinv t ht (by simp [hact])
          rw [hact] at hres
          apply hcond
          simp [hres, hloc t ht (Or.inr (by simp [hact]))]
    · have hid2 : existing.experiment_id = cfg.experiment_id := by simpa using hid
      have hepre : ((((s.working.updateExperiment cfg.experiment_id
          (fun e => { e with traffic_allocation := cfg.traffic_allocation })).freeExperimentSlots
            layer.layer_id cfg.experiment_id).updateExperiment cfg.experiment_id
          (fun e => { e with status := ExperimentStatus.completed })).getExperiment
            cfg.experiment_id) = some { existing with
              traffic_allocation := cfg.traffic_allocation,
              status := ExperimentStatus.completed } := by
        rw [getExperiment_updateExperiment _ _ _
          (fun e => { e with status := ExperimentStatus.completed }) (fun e => rfl)]
        have hfree : ((s.working.updateExperiment cfg.experiment_id
            (fun e => { e with traffic_allocation := cfg.traffic_allocation })).freeExperimentSlots
              layer.layer_id cfg.experiment_id).getExperiment cfg.experiment_id =
            (s.working.updateExperiment cfg.experiment_id
              (fun e => { e with traffic_allocation := cfg.traffic_allocation })).getExperiment
                cfg.experiment_id := rfl
        rw [hfree, getExperiment_updateExperiment _ _ _
          (fun e => { e with traffic_allocation := cfg.traffic_allocation })
          (fun e => rfl), hex]
        simp [hid2]
      exact ⟨_, hepre, rfl, rfl⟩


/-- Winner allocation (all traffic on "A") submitted with a live status. -/
def c6cfgWinnerActive : ExperimentConfig :=
  { experiment_id := "exp_a", layer_id := "layer_1", name := "A/B",
    variants := ["A", "B"], traffic_allocation := [("A", 1), ("B", 0)],
    status := .active, start_date := none, end_date := none,
    segment_allocations := none, geo_allocations := none,
    stratum_allocations := none, splitter_type := "hash",
    traffic_percentage := 0.5, reserved_percentage := 0.5, priority := 0 }

/-- The same winner allocation submitted with `status = "completed"`. -/
def c6cfgWinnerCompleted : ExperimentConfig :=
  { c6cfgWinnerActive with status := .completed }

/-- Witness for C6 at a concrete input: the winner allocation for the
live `exp_a` is rejected under status `active` and accepted under
status `completed`, freeing the experiment's slots. -/
theorem winner_collapse_witness :
    (∃ e, apply_experiment_config c5s wLayer c6cfgWinnerActive = .err e c5s) ∧
    (∃ s', apply_experiment_config c5s wLayer c6cfgWinnerCompleted = .ok () s' ∧
      (∀ sl ∈ s'.working.slots,
        sl.reserved_experiment_id ≠ some "exp_a" ∧
        sl.experiment_id ≠ some "exp_a") ∧
      (∃ ex', s'.working.getExperiment "exp_a" = some ex' ∧
        ex'.status = ExperimentStatus.completed ∧
        ex'.traffic_allocation = c6cfgWinnerCompleted.traffic_allocation)) :=
  ⟨(winner_collapse c5s wLayer c5exp c6cfgWinnerActive (by decide) (by decide)).1
      (by decide),
   (winner_collapse c5s wLayer c5exp c6cfgWinnerCompleted (by decide)
      (by decide)).2 rfl rfl rfl rfl rfl (by decide) (by decide) (by decide)
      (by decide) (by unfold SlotInv; decide) (by decide)⟩


/-- The session-level active-subset-of-reserved invariant: it holds in
both the persisted and the working database. -/
def SessInv (s : Sess) : Prop :=
  SlotInv s.persisted ∧ SlotInv s.working

/-- Helper: a slot-wise update preserves `SlotInv` when it preserves the
per-slot invariant. -/
theorem slotInv_map (db : DB) (f : LayerSlot → LayerSlot)
    (hf : ∀ t ∈ db.slots,
      (t.experiment_id ≠ none → t.reserved_experiment_id = t.experiment_id) →
      ((f t).experiment_id ≠ none →
        (f t).reserved_experiment_id = (f t).experiment_id))
    (h : SlotInv db) : SlotInv { db with slots := db.slots.map f } := by
  intro sl hsl
  simp only [List.mem_map] at hsl
  obtain ⟨t, ht, rfl⟩ := hsl
  exact hf t ht (h t ht)

/-- Helper: reserving free slots preserves the invariant. -/
theorem slotInv_reserveSlots (db : DB) (L eid : String) (idxs : List Nat)
    (h : SlotInv db) : SlotInv (db.reserveSlots L eid idxs) := by
  refine slotInv_map db _ (fun t ht hinv => ?_) h
  by_cases hc : (t.layer_id == L && t.reserved_experiment_id == none &&
      idxs.contains t.slot_index) = true
  · simp only [hc, if_true, ite_true]
    intro hact
    exfalso
    have hres := hinv hact
    simp only [Bool.and_eq_true, beq_iff_eq] at hc
    rw [hc.1.2] at hres
    exact hact hres.symm
  · simp only [hc, Bool.false_eq_true, if_false, ite_false]
    exact hinv

/-- Helper: activating reserved slots preserves the invariant. -/
theorem slotInv_activateReservedSlots (db : DB) (L eid : String)
    (idxs : List Nat) (h : SlotInv db) :
    SlotInv (db.activateReservedSlots L eid idxs) := by
  refine slotInv_map db _ (fun t ht hinv => ?_) h
  by_cases hc : (t.layer_id == L && t.reserved_experiment_id == some eid &&
      idxs.contains t.slot_index) = true
  · simp only [hc, if_true, ite_true]
    intro _
    simp only [Bool.and_eq_true, beq_iff_eq] at hc
    exact hc.1.2
  · simp only [hc, Bool.false_eq_true, if_false, ite_false]
    exact hinv

/-- Helper: ramp-up activation preserves the invariant. -/
theorem slotInv_rampUpSlots (db : DB) (L eid : String) (idxs : List Nat)
    (h : SlotInv db) : SlotInv (db.rampUpSlots L eid idxs) := by
  refine slotInv_map db _ (fun t ht hinv => ?_) h
  by_cases hc : (t.layer_id == L && t.reserved_experiment_id == some eid &&
      t.experiment_id == none && idxs.contains t.slot_index) = true
  · simp only [hc, if_true, ite_true]
    intro _
    simp only [Bool.and_eq_true, beq_iff_eq] at hc
    exact hc.1.1.2
  · simp only [hc, Bool.false_eq_true, if_false, ite_false]
    exact hinv

/-- Helper: freeing an experiment's slots preserves the invariant. -/
theorem slotInv_freeExperimentSlots (db : DB) (L eid : String)
    (h : SlotInv db) : SlotInv (db.freeExperimentSlots L eid) := by
  refine slotInv_map db _ (fun t ht hinv => ?_) h
  by_cases hc : (t.layer_id == L &&
      t.reserved_experiment_id == some eid) = true
  · simp only [hc, if_true, ite_true]
    intro hact
    exact absurd rfl hact
  · simp only [hc, Bool.false_eq_true, if_false, ite_false]
    exact hinv

/-- Helper: appending the empty slots of a new layer preserves the
invariant. -/
theorem slotInv_append_empty (db : DB) (lid : String) (n : Nat)
    (layers : List Layer) (h : SlotInv db) :
    SlotInv { db with
      layers := layers,
      slots := db.slots ++ ((List.range n).map fun i =>
        { layer_id := lid, slot_index := i, experiment_id := none,
          reserved_experiment_id := none }) } := by
  intro sl hsl
  simp only [List.mem_append, List.mem_map] at hsl
  rcases hsl with hsl | ⟨i, _, rfl⟩
  · exact h sl hsl
  · intro hact
    exact absurd rfl hact


/-- Helper: `create_layer` preserves the invariant. -/
theorem sessInv_create_layer (s : Sess) (h : SessInv s) (lid salt : String)
    (ts : Nat) (ttp : ℚ) : SessInv (create_layer s lid salt ts ttp).sess := by
  unfold create_layer
  split
  · exact h
  · exact ⟨slotInv_append_empty _ _ _ _ h.2, slotInv_append_empty _ _ _ _ h.2⟩

/-- Helper: `add_experiment` preserves the invariant. -/
theorem sessInv_add_experiment (s : Sess) (h : SessInv s) (layer : Layer)
    (exp : Experiment) : SessInv (add_experiment s layer exp).sess := by
  simp only [add_experiment]
  split_ifs <;>
    first
      | exact h
      | exact ⟨h.1, slotInv_reserveSlots _ _ _ _ h.2⟩
      | exact ⟨slotInv_activateReservedSlots _ _ _ _
            (slotInv_reserveSlots _ _ _ _ h.2),
          slotInv_activateReservedSlots _ _ _ _
            (slotInv_reserveSlots _ _ _ _ h.2)⟩

/-- Helper: `remove_experiment` preserves the invariant. -/
theorem sessInv_remove_experiment (s : Sess) (h : SessInv s) (layer : Layer)
    (eid : String) : SessInv (remove_experiment s layer eid).sess := by
  simp only [remove_experiment]
  split
  · exact h
  · exact ⟨slotInv_freeExperimentSlots _ _ _ h.2,
      slotInv_freeExperimentSlots _ _ _ h.2⟩

/-- Helper: `_apply_reservation_slots` preserves the invariant. -/
theorem sessInv_apply_reservation_slots (s : Sess) (h : SessInv s)
    (layer : Layer) (existing : Experiment) (cfg : ExperimentConfig) :
    SessInv (apply_reservation_slots s layer existing cfg).sess := by
  simp only [apply_reservation_slots]
  split_ifs <;>
    first
      | exact h
      | exact ⟨h.1, slotInv_reserveSlots _ _ _ _ h.2⟩

/-- Helper: `_apply_ramp_up_slots` preserves the invariant. -/
theorem sessInv_apply_ramp_up_slots (s : Sess) (h : SessInv s)
    (layer : Layer) (existing : Experiment) (cfg : ExperimentConfig) :
    SessInv (apply_ramp_up_slots s layer existing cfg).sess := by
  simp only [apply_ramp_up_slots]
  split_ifs <;>
    first
      | exact h
      | exact ⟨h.1, slotInv_rampUpSlots _ _ _ _ h.2⟩

/-- Helper: the result wrapper around `remove_experiment` in the
completed-status branch preserves the invariant. -/
theorem sessInv_match_remove (s : Sess) (layer : Layer) (eid : String)
    (h : SessInv s) :
    SessInv (Res.sess (match remove_experiment s layer eid with
      | .ok _ s2 => (Res.ok () s2 : Res Unit)
      | .err e s2 => Res.err e s2)) := by
  cases hrem : remove_experiment s layer eid with
  | ok b s2 =>
    have hres := sessInv_remove_experiment s h layer eid
    rw [hrem] at hres
    exact hres
  | err e s2 =>
    have hres := sessInv_remove_experiment s h layer eid
    rw [hrem] at hres
    exact hres

/-- Helper: the completed-status branch preserves the invariant. -/
theorem sessInv_apply_completed_config (s : Sess) (h : SessInv s)
    (layer : Layer) (cfg : ExperimentConfig) :
    SessInv (apply_completed_config s layer cfg).sess := by
  simp only [apply_completed_config]
  split
  · exact h
  · split_ifs <;>
      first
        | exact h
        | exact sessInv_match_remove _ layer cfg.experiment_id ⟨h.1, h.2⟩


/-- Helper: the ramp-up-then-update tail of the live-update path
preserves the invariant. -/
theorem sessInv_update_tail (s1 : Sess) (h1 : SessInv s1) (layer : Layer)
    (existing : Experiment) (cfg : ExperimentConfig) :
    SessInv (Res.sess (match apply_ramp_up_slots s1 layer existing cfg with
      | .err e s2 => (Res.err e s2 : Res Unit)
      | .ok () s2 => Res.ok () (commit { s2 with working :=
          (s2.working.updateExperiment cfg.experiment_id
            (update_experiment_fields cfg)) }))) := by
  cases hramp : apply_ramp_up_slots s1 layer existing cfg with
  | err e s2 =>
    have h2 := sessInv_apply_ramp_up_slots s1 h1 layer existing cfg
    rw [hramp] at h2
    exact h2
  | ok u s2 =>
    cases u
    have h2 := sessInv_apply_ramp_up_slots s1 h1 layer existing cfg
    rw [hramp] at h2
    replace h2 : SessInv s2 := h2
    exact ⟨h2.2, h2.2⟩

/-- Helper: the reservation-then-ramp-up tail of the live-update path
preserves the invariant. -/
theorem sessInv_res_tail (s : Sess) (h : SessInv s) (layer : Layer)
    (existing : Experiment) (cfg : ExperimentConfig) :
    SessInv (Res.sess (match apply_reservation_slots s layer existing cfg with
      | .err e s1 => (Res.err e s1 : Res Unit)
      | .ok () s1 =>
        match apply_ramp_up_slots s1 layer existing cfg with
        | .err e s2 => Res.err e s2
        | .ok () s2 => Res.ok () (commit { s2 with working :=
            (s2.working.updateExperiment cfg.experiment_id
              (update_experiment_fields cfg)) }))) := by
  cases hres : apply_reservation_slots s layer existing cfg with
  | err e s1 =>
    have h1 := sessInv_apply_reservation_slots s h layer existing cfg
    rw [hres] at h1
    exact h1
  | ok u s1 =>
    cases u
    have h1 := sessInv_apply_reservation_slots s h layer existing cfg
    rw [hres] at h1
    exact sessInv_update_tail s1 h1 layer existing cfg

/-- Helper: `_apply_experiment_config` preserves the invariant. -/
theorem sessInv_apply_experiment_config (s : Sess) (h : SessInv s)
    (layer : Layer) (cfg : ExperimentConfig) :
    SessInv (apply_experiment_config s layer cfg).sess := by
  simp only [apply_experiment_config]
  split
  · exact sessInv_apply_completed_config s h layer cfg
  · split
    · cases hadd : add_experiment s layer (build_experiment cfg) with
      | ok b s1 =>
        have hres := sessInv_add_experiment s h layer (build_experiment cfg)
        rw [hadd] at hres
        cases b <;> simpa using hres
      | err e s1 =>
        have hres := sessInv_add_experiment s h layer (build_experiment cfg)
        rw [hadd] at hres
        simpa using hres
    · rename_i existing heq
      split
      · exact h
      · split
        · exact h
        · split
          · exact h
          · split
            · exact h
            · exact sessInv_res_tail s h layer existing cfg

/-- Helper: the per-experiment loop preserves the invariant. -/
theorem sessInv_apply_experiment_configs (layer : Layer) (lid : String)
    (cfgs : List ExperimentConfig) : ∀ s : Sess, SessInv s →
    SessInv (apply_experiment_configs layer lid cfgs s).sess := by
  induction cfgs with
  | nil => intro s h; exact h
  | cons c rest ih =>
    intro s h
    simp only [apply_experiment_configs]
    split
    · exact h
    · cases happ : apply_experiment_config s layer c with
      | ok u s1 =>
        have h1 := sessInv_apply_experiment_config s h layer c
        rw [happ] at h1
        exact ih s1 (by simpa using h1)
      | err e s1 =>
        have h1 := sessInv_apply_experiment_config s h layer c
        rw [happ] at h1
        simpa using h1

/-- Helper: `_apply_layer_config` preserves the invariant. -/
theorem sessInv_apply_layer_config (s : Sess) (h : SessInv s)
    (lc : LayerConfig) : SessInv (apply_layer_config s lc).sess := by
  simp only [apply_layer_config]
  split
  · exact h
  · split
    · cases hcr : create_layer s lc.layer_id lc.layer_salt lc.total_slots
          lc.total_traffic_percentage with
      | ok layer s1 =>
        have h1 := sessInv_create_layer s h lc.layer_id lc.layer_salt
          lc.total_slots lc.total_traffic_percentage
        rw [hcr] at h1
        exact sessInv_apply_experiment_configs layer lc.layer_id lc.experiments
          s1 (by simpa using h1)
      | err e s1 =>
        have h1 := sessInv_create_layer s h lc.layer_id lc.layer_salt
          lc.total_slots lc.total_traffic_percentage
        rw [hcr] at h1
        simpa using h1
    · split_ifs
      · exact h
      · exact h
      · exact sessInv_apply_experiment_configs _ _ _ _ ⟨h.2, h.2⟩
      · exact sessInv_apply_experiment_configs _ _ _ _ h

/-- Helper: an `apply_layer_configs` batch preserves the invariant. -/
theorem sessInv_apply_layer_configs (lcs : List LayerConfig) :
    ∀ s : Sess, SessInv s → SessInv (apply_layer_configs lcs s).sess := by
  induction lcs with
  | nil => intro s h; exact h
  | cons lc rest ih =>
    intro s h
    simp only [apply_layer_configs]
    cases happ : apply_layer_config s lc with
    | ok u s1 =>
      have h1 := sessInv_apply_layer_config s h lc
      rw [happ] at h1
      exact ih s1 (by simpa using h1)
    | err e s1 =>
      have h1 := sessInv_apply_layer_config s h lc
      rw [happ] at h1
      simpa using h1

/-- C2: every operation — `create_layer`, `add_experiment`,
`remove_experiment`, and each Config Synchronizer step (the reservation
step, the ramp-up step, a whole per-experiment application, and a whole
batch) — preserves the invariant that a slot whose active
`experiment_id` is set carries the same id in `reserved_experiment_id`:
active slots are always among the slots reserved for that experiment,
in both the working and the persisted database. -/
theorem operations_preserve_active_subset_reserved (s : Sess)
    (h : SessInv s) :
    (∀ lid salt ts ttp, SessInv (create_layer s lid salt ts ttp).sess) ∧
    (∀ layer exp, SessInv (add_experiment s layer exp).sess) ∧
    (∀ layer eid, SessInv (remove_experiment s layer eid).sess) ∧
    (∀ layer existing cfg,
      SessInv (apply_reservation_slots s layer existing cfg).sess) ∧
    (∀ layer existing cfg,
      SessInv (apply_ramp_up_slots s layer existing cfg).sess) ∧
    (∀ layer cfg, SessInv (apply_experiment_config s layer cfg).sess) ∧
    (∀ lcs, SessInv (apply_layer_configs lcs s).sess) :=
  ⟨fun lid salt ts ttp => sessInv_create_layer s h lid salt ts ttp,
   fun layer exp => sessInv_add_experiment s h layer exp,
   fun layer eid => sessInv_remove_experiment s h layer eid,
   fun layer existing cfg => sessInv_apply_reservation_slots s h layer existing cfg,
   fun layer existing cfg => sessInv_apply_ramp_up_slots s h layer existing cfg,
   fun layer cfg => sessInv_apply_experiment_config s h layer cfg,
   fun lcs => sessInv_apply_layer_configs lcs s h⟩

/-- A one-layer batch completing `exp_a`, for the C2 witness. -/
def c2batch : List LayerConfig :=
  [{ layer_id := "layer_1", layer_salt := "salt_1",
     total_slots := BUCKET_SPACE, total_traffic_percentage := 1,
     experiments := [c5cfgCompleted], slots := none }]

/-- Witness for C2 at a concrete input: the invariant holds in `c5s` and
is preserved by a concrete batch and by `remove_experiment`. -/
theorem operations_preserve_active_subset_reserved_witness :
    SessInv (apply_layer_configs c2batch c5s).sess ∧
    SessInv (remove_experiment c5s wLayer "exp_a").sess :=
  ⟨(operations_preserve_active_subset_reserved c5s
      (by constructor <;> (unfold SlotInv; decide))).2.2.2.2.2.2 c2batch,
   (operations_preserve_active_subset_reserved c5s
      (by constructor <;> (unfold SlotInv; decide))).2.2.1 wLayer "exp_a"⟩


/-- Helper: slot lookup through a key-preserving slot-wise update. -/
theorem slotAt_map (db : DB) (f : LayerSlot → LayerSlot)
    (hk : ∀ t, (f t).layer_id = t.layer_id ∧ (f t).slot_index = t.slot_index)
    (L : String) (i : Nat) :
    (({ db with slots := db.slots.map f }) : DB).slotAt L i =
      (db.slotAt L i).map f := by
  unfold DB.slotAt
  rw [List.find?_map]
  have hp : ((fun t : LayerSlot => t.layer_id == L && t.slot_index == i) ∘ f) =
      fun t : LayerSlot => t.layer_id == L && t.slot_index == i := by
    funext t
    simp [Function.comp, (hk t).1, (hk t).2]
  rw [hp]

/-- Helper: reserving slots never changes any slot's active experiment. -/
theorem activeAt_reserveSlots (db : DB) (L0 eid : String) (idxs : List Nat)
    (L : String) (i : Nat) :
    (db.reserveSlots L0 eid idxs).activeAt L i = db.activeAt L i := by
  unfold DB.activeAt DB.reserveSlots
  rw [slotAt_map db _ (fun t => by split <;> exact ⟨rfl, rfl⟩)]
  cases db.slotAt L i with
  | none => rfl
  | some t =>
    simp only [Option.map, Option.bind]
    split <;> rfl

/-- Helper: ramp-up activation only touches slots with no active
experiment, so existing active assignments survive. -/
theorem activeAt_rampUpSlots_mono (db : DB) (L0 eid : String)
    (idxs : List Nat) (L : String) (i : Nat) (e : String)
    (h : db.activeAt L i = some e) :
    (db.rampUpSlots L0 eid idxs).activeAt L i = some e := by
  unfold DB.activeAt DB.rampUpSlots at *
  rw [slotAt_map db _ (fun t => by split <;> exact ⟨rfl, rfl⟩)]
  cases hs : db.slotAt L i with
  | none => rw [hs] at h; cases h
  | some t =>
    rw [hs] at h
    simp only [Option.bind] at h
    simp only [Option.map, Option.bind]
    split
    · rename_i hc
      simp only [Bool.and_eq_true, beq_iff_eq] at hc
      rw [hc.1.2] at h
      cases h
    · exact h

/-- Helper: shape of a successful `_apply_reservation_slots`: it keeps
every active assignment, the experiment rows, and the persisted state. -/
theorem apply_reservation_slots_ok (s : Sess) (layer : Layer)
    (existing : Experiment) (cfg : ExperimentConfig) (u : Unit) (s1 : Sess)
    (h : apply_reservation_slots s layer existing cfg = .ok u s1) :
    (∀ L i e, s.working.activeAt L i = some e →
      s1.working.activeAt L i = some e) ∧
    s1.working.experiments = s.working.experiments ∧
    s1.persisted = s.persisted := by
  simp only [apply_reservation_slots] at h
  split_ifs at h <;> cases h
  · exact ⟨fun L i e hh => hh, rfl, rfl⟩
  · refine ⟨fun L i e hh => ?_, rfl, rfl⟩
    show (s.working.reserveSlots layer.layer_id
      existing.experiment_id _).activeAt L i = some e
    rw [activeAt_reserveSlots]
    exact hh

/-- Helper: shape of a successful `_apply_ramp_up_slots`. -/
theorem apply_ramp_up_slots_ok (s : Sess) (layer : Layer)
    (existing : Experiment) (cfg : ExperimentConfig) (u : Unit) (s1 : Sess)
    (h : apply_ramp_up_slots s layer existing cfg = .ok u s1) :
    (∀ L i e, s.working.activeAt L i = some e →
      s1.working.activeAt L i = some e) ∧
    s1.working.experiments = s.working.experiments ∧
    s1.persisted = s.persisted := by
  simp only [apply_ramp_up_slots] at h
  split_ifs at h <;> cases h
  · exact ⟨fun L i e hh => hh, rfl, rfl⟩
  · exact ⟨fun L i e hh => activeAt_rampUpSlots_mono _ _ _ _ _ _ _ hh, rfl, rfl⟩


/-- Helper: a successful lookup comes from an entry of the dict. -/
theorem lookupKey_some_mem {m : List (String × α)} {k : String} {v : α}
    (h : lookupKey m k = some v) : ∃ kv ∈ m, kv.1 = k ∧ kv.2 = v := by
  unfold lookupKey at h
  cases hf : m.find? fun kv => kv.1 == k with
  | none => rw [hf] at h; cases h
  | some kv =>
    rw [hf] at h
    refine ⟨kv, List.mem_of_find?_eq_some hf, ?_, ?_⟩
    · have := List.find?_some hf
      simpa using this
    · have hh : kv.2 = v := by simpa using h
      exact hh

/-- Helper: an entry of the dict makes the lookup succeed. -/
theorem lookupKey_isSome_of_mem {m : List (String × α)} {kv : String × α}
    (h : kv ∈ m) : (lookupKey m kv.1).isSome = true := by
  unfold lookupKey
  cases hf : m.find? fun x => x.1 == kv.1 with
  | none =>
    exfalso
    have := List.find?_eq_none.mp hf kv h
    simp at this
  | some x => rfl

/-- Helper: dict-equal allocation maps answer every lookup alike. -/
theorem lookupKey_eq_of_allocEq {a b : AllocMap}
    (h : allocEq a b = true) : ∀ k, lookupKey a k = lookupKey b k := by
  unfold allocEq dictEqBy at h
  rw [Bool.and_eq_true, List.all_eq_true, List.all_eq_true] at h
  intro k
  cases ha : lookupKey a k with
  | some v =>
    obtain ⟨kv, hmem, hk, hv⟩ := lookupKey_some_mem ha
    have := h.1 kv hmem
    rw [hk] at this
    cases hb : lookupKey b k with
    | none => rw [hb] at this; cases this
    | some w =>
      rw [hb] at this
      simp only [beq_iff_eq] at this
      rw [hv] at this
      rw [this]
  | none =>
    cases hb : lookupKey b k with
    | some w =>
      obtain ⟨kv, hmem, hk, hv⟩ := lookupKey_some_mem hb
      have := h.2 kv hmem
      rw [hk, ha] at this
      cases this
    | none => rfl

/-- Helper: key membership matches lookup success. -/
theorem mem_keys_iff_lookup (m : List (String × α)) (k : String) :
    k ∈ m.map (·.1) ↔ (lookupKey m k).isSome = true := by
  constructor
  · intro h
    obtain ⟨kv, hkv, rfl⟩ := List.mem_map.mp h
    exact lookupKey_isSome_of_mem hkv
  · intro h
    cases hl : lookupKey m k with
    | none => rw [hl] at h; cases h
    | some v =>
      obtain ⟨kv, hmem, hk, _⟩ := lookupKey_some_mem hl
      exact List.mem_map.mpr ⟨kv, hmem, hk⟩

/-- Helper: `normalize_allocations` only depends on the allocation map
through its lookups. -/
theorem normalize_allocations_eq_of_lookup (variants : List String)
    (m1 m2 : AllocMap) (hl : ∀ k, lookupKey m1 k = lookupKey m2 k) :
    normalize_allocations variants (some m1) =
      normalize_allocations variants (some m2) := by
  unfold normalize_allocations
  by_cases hv : variants = []
  · simp [hv]
  · simp only [hv, if_false]
    have hmiss : (variants.filter fun v => (lookupKey m1 v).isNone) =
        variants.filter fun v => (lookupKey m2 v).isNone :=
      List.filter_congr fun v _ => by rw [hl v]
    have hex1 : (((m1.map (·.1)).filter fun k => ! variants.contains k) = []) ↔
        (((m2.map (·.1)).filter fun k => ! variants.contains k) = []) := by
      rw [List.filter_eq_nil_iff, List.filter_eq_nil_iff]
      constructor <;> intro hh k hk hc
      · have : (lookupKey m1 k).isSome = true := by
          rw [hl k]
          exact (mem_keys_iff_lookup m2 k).mp hk
        exact hh k ((mem_keys_iff_lookup m1 k).mpr this) hc
      · have : (lookupKey m2 k).isSome = true := by
          rw [← hl k]
          exact (mem_keys_iff_lookup m1 k).mp hk
        exact hh k ((mem_keys_iff_lookup m2 k).mpr this) hc
    have hvals : (variants.map fun v => (lookupKey m1 v).getD 0) =
        variants.map fun v => (lookupKey m2 v).getD 0 :=
      List.map_congr_left fun v _ => by rw [hl v]
    rw [hmiss, hvals]
    by_cases hm : (variants.filter fun v => (lookupKey m2 v).isNone) ≠ []
    · rw [if_pos (Or.inl hm), if_pos (Or.inl hm)]
    · by_cases he : ((m1.map (·.1)).filter fun k => ! variants.contains k) ≠ []
      · rw [if_pos (Or.inr he),
          if_pos (Or.inr (fun hh => he (hex1.mpr hh)))]
      · have hc1 : ¬((variants.filter fun v => (lookupKey m2 v).isNone) ≠ [] ∨
            ((m1.map (·.1)).filter fun k => ! variants.contains k) ≠ []) := by
          push_neg
          exact ⟨not_ne_iff.mp hm, not_ne_iff.mp he⟩
        have hc2 : ¬((variants.filter fun v => (lookupKey m2 v).isNone) ≠ [] ∨
            ((m2.map (·.1)).filter fun k => ! variants.contains k) ≠ []) := by
          push_neg
          exact ⟨not_ne_iff.mp hm, hex1.mp (not_ne_iff.mp he)⟩
        rw [if_neg hc1, if_neg hc2]

/-- Helper: the deterministic variant of a unit is unchanged when the
experiment id and variant list agree and the allocations are dict-equal. -/
theorem variant_for_congr (md5 : String → Nat) (e1 e2 : Experiment)
    (unit_id : String)
    (hid : e2.experiment_id = e1.experiment_id)
    (hv : e2.variants = e1.variants)
    (ha : allocEq e1.traffic_allocation e2.traffic_allocation = true) :
    variant_for md5 e2 unit_id = variant_for md5 e1 unit_id := by
  unfold variant_for
  rw [hid, hv]
  rw [show normalize_allocations e1.variants (some e2.traffic_allocation) =
      normalize_allocations e1.variants (some e1.traffic_allocation) from
    (normalize_allocations_eq_of_lookup e1.variants e1.traffic_allocation
      e2.traffic_allocation (lookupKey_eq_of_allocEq ha)).symm]

/-- Helper: facts recovered from a successful immutables validation. -/
theorem immutables_ok_facts (existing : Experiment) (cfg : ExperimentConfig)
    (u : Unit) (h : validate_experiment_immutables existing cfg = .ok u) :
    existing.variants = cfg.variants ∧
    allocEq existing.traffic_allocation cfg.traffic_allocation = true := by
  unfold validate_experiment_immutables at h
  split_ifs at h with h1 h2 h3 h4 h5 h6 h7
  · exact ⟨not_ne_iff.mp h3, by
      rcases hb : allocEq existing.traffic_allocation cfg.traffic_allocation with _ | _
      · exact absurd hb.symm (by simpa using h7)
      · rfl⟩

/-- Helper: a found experiment row carries the looked-up id. -/
theorem getExperiment_some_id {db : DB} {k : String} {ex : Experiment}
    (h : db.getExperiment k = some ex) : ex.experiment_id = k := by
  unfold DB.getExperiment at h
  have := List.find?_some h
  simpa using this


/-- Helper: updating an experiment row never changes slot ownership. -/
theorem activeAt_updateExperiment (db : DB) (eid : String)
    (f : Experiment → Experiment) (L : String) (i : Nat) :
    (db.updateExperiment eid f).activeAt L i = db.activeAt L i := rfl

/-- Helper: experiment lookup only depends on the experiment rows. -/
theorem getExperiment_congr {db1 db2 : DB}
    (h : db1.experiments = db2.experiments) (k : String) :
    db1.getExperiment k = db2.getExperiment k := by
  unfold DB.getExperiment
  rw [h]

/-- C1 (ramp stability): when the Config Synchronizer successfully
applies a non-completed config for an existing experiment that raises
`traffic_percentage` (with `reserved_percentage` unchanged or raised),
(a) every slot whose active `experiment_id` was set keeps the same
`experiment_id`, and (b) every unit whose slot was already active keeps
the same `(experiment_id, variant)` under the deterministic
hash-assignment mapping `assigned_pair`. -/
theorem ramp_up_preserves_assignments (s : Sess) (layer : Layer)
    (existing : Experiment) (cfg : ExperimentConfig) (s' : Sess)
    (hex : s.working.getExperiment cfg.experiment_id = some existing)
    (hnc : cfg.status ≠ ExperimentStatus.completed)
    (htr : existing.traffic_percentage ≤ cfg.traffic_percentage)
    (hrp : existing.reserved_percentage ≤ cfg.reserved_percentage)
    (hok : apply_experiment_config s layer cfg = .ok () s') :
    (∀ L i e, s.working.activeAt L i = some e →
      s'.working.activeAt L i = some e) ∧
    (∀ md5 unit_id p, assigned_pair md5 s.working layer unit_id = some p →
      assigned_pair md5 s'.working layer unit_id = some p) := by
  simp only [apply_experiment_config, if_neg hnc, hex] at hok
  by_cases hst : existing.status = ExperimentStatus.completed
  · rw [if_pos hst] at hok
    exact Res.noConfusion hok
  · rw [if_neg hst] at hok
    cases him : validate_experiment_immutables existing cfg with
    | error e =>
      simp only [him] at hok
      exact Res.noConfusion hok
    | ok u =>
      cases u
      simp only [him] at hok
      cases htpc : validate_traffic_percentage_change existing cfg with
      | error e =>
        simp only [htpc] at hok
        exact Res.noConfusion hok
      | ok u =>
        cases u
        simp only [htpc] at hok
        cases hrpc : validate_reserved_percentage_change s.working layer
            existing cfg with
        | error e =>
          simp only [hrpc] at hok
          exact Res.noConfusion hok
        | ok u =>
          cases u
          simp only [hrpc] at hok
          cases hres : apply_reservation_slots s layer existing cfg with
          | err e s1 =>
            simp only [hres] at hok
            exact Res.noConfusion hok
          | ok u s1 =>
            cases u
            simp only [hres] at hok
            cases hramp : apply_ramp_up_slots s1 layer existing cfg with
            | err e s2 =>
              simp only [hramp] at hok
              exact Res.noConfusion hok
            | ok u s2 =>
              cases u
              simp only [hramp] at hok
              have hs' : s' = commit { s2 with working :=
                  (s2.working.updateExperiment cfg.experiment_id
                    (update_experiment_fields cfg)) } := by
                cases hok
                rfl
              obtain ⟨hresA, hresE, _⟩ :=
                apply_reservation_slots_ok s layer existing cfg () s1 hres
              obtain ⟨hrampA, hrampE, _⟩ :=
                apply_ramp_up_slots_ok s1 layer existing cfg () s2 hramp
              subst hs'
              have hactW : ∀ L i e, s.working.activeAt L i = some e →
                  (s2.working.updateExperiment cfg.experiment_id
                    (update_experiment_fields cfg)).activeAt L i = some e := by
                intro L i e hh
                rw [activeAt_updateExperiment]
                exact hrampA L i e (hresA L i e hh)
              constructor
              · exact hactW
              · intro md5 unit_id p hp
                show assigned_pair md5
                  (s2.working.updateExperiment cfg.experiment_id
                    (update_experiment_fields cfg)) layer unit_id = some p
                simp only [assigned_pair] at hp ⊢
                cases hact : s.working.activeAt layer.layer_id
                    (calculate_user_slot md5 layer.layer_salt
                      layer.total_slots unit_id) with
                | none =>
                  simp only [hact] at hp
                  cases hp
                | some eid =>
                  simp only [hact] at hp
                  cases hgx : s.working.getExperiment eid with
                  | none =>
                    simp only [hgx] at hp
                    cases hp
                  | some ex0 =>
                    simp only [hgx] at hp
                    cases hp
                    simp only [hactW layer.layer_id
                      (calculate_user_slot md5 layer.layer_salt
                        layer.total_slots unit_id) eid hact]
                    have hgetW : (s2.working.updateExperiment cfg.experiment_id
                        (update_experiment_fields cfg)).getExperiment eid =
                        some (if ex0.experiment_id == cfg.experiment_id then
                          update_experiment_fields cfg ex0 else ex0) := by
                      rw [getExperiment_updateExperiment s2.working
                        cfg.experiment_id eid
                        (update_experiment_fields cfg) (fun e => rfl)]
                      rw [getExperiment_congr (hrampE.trans hresE) eid, hgx]
                      simp only [Option.map]
                    simp only [hgetW]
                    by_cases heid : ex0.experiment_id = cfg.experiment_id
                    · have hex0 : ex0 = existing := by
                        have hgx2 : s.working.getExperiment cfg.experiment_id =
                            some ex0 := by
                          rw [← heid, getExperiment_some_id hgx]
                          exact hgx
                        rw [hgx2] at hex
                        exact Option.some.inj hex
                      subst hex0
                      rw [if_pos (by simp [heid])]
                      have hvar : variant_for md5
                          (update_experiment_fields cfg ex0) unit_id =
                          variant_for md5 ex0 unit_id :=
                        variant_for_congr md5 ex0
                          (update_experiment_fields cfg ex0) unit_id rfl rfl
                          (immutables_ok_facts ex0 cfg () him).2
                      rw [hvar]
                    · rw [if_neg (by simp [heid])]

/-- A config for `exp_a` ramping `traffic_percentage` and
`reserved_percentage` up from 0.5 to 0.7. -/
def c1cfg : ExperimentConfig :=
  { c5cfgCompleted with
    status := .active,
    traffic_percentage := 0.7,
    reserved_percentage := 0.7 }

/-- The session after the successful ramp-up application. -/
def c1s : Sess := (apply_experiment_config c5s wLayer c1cfg).sess

/-- Witness for C1 at a concrete input. -/
theorem ramp_up_preserves_assignments_witness :
    (apply_experiment_config c5s wLayer c1cfg = .ok () c1s) ∧
    ((∀ L i e, c5s.working.activeAt L i = some e →
        c1s.working.activeAt L i = some e) ∧
     (∀ md5 unit_id p, assigned_pair md5 c5s.working wLayer unit_id = some p →
        assigned_pair md5 c1s.working wLayer unit_id = some p)) :=
  ⟨by decide, ramp_up_preserves_assignments c5s wLayer c5exp c1cfg c1s
    (by decide) (by decide) (by decide) (by decide) (by decide)⟩


/-- Decidable equality of embedded operation results. -/
instance exceptDecEq {e a : Type} [DecidableEq e] [DecidableEq a] :
    DecidableEq (Except e a) := fun x y =>
  match x, y with
  | .ok v, .ok w => decidable_of_iff (v = w) (by simp)
  | .ok _, .error _ => isFalse (by simp)
  | .error _, .ok _ => isFalse (by simp)
  | .error v, .error w => decidable_of_iff (v = w) (by simp)

/-- The spec's acceptance condition for an explicit allocation map,
stated from the spec's words for comparison with the code's
`validate_allocation_map` and `normalize_allocations`: the map's keys
are exactly the variant list, every value is ≥ 0, and the values sum to
1 within tolerance 1e-6. -/
def spec_allocation_ok (variants : List String) (m : AllocMap) : Prop :=
  (∀ v ∈ variants, (lookupKey m v).isSome = true) ∧
  (∀ kv ∈ m, kv.1 ∈ variants) ∧
  (∀ v ∈ variants, 0 ≤ (lookupKey m v).getD 0) ∧
  |(variants.map fun v => (lookupKey m v).getD 0).sum - 1| ≤ tol6

/-- Helper: the missing-keys filter is empty iff every variant has an
entry in the map. -/
theorem missing_nil_iff (variants : List String) (m : AllocMap) :
    ((variants.filter fun v => (lookupKey m v).isNone) = []) ↔
      ∀ v ∈ variants, (lookupKey m v).isSome = true := by
  rw [List.filter_eq_nil_iff]
  constructor <;> intro h v hv
  · have hh := h v hv
    cases hl : lookupKey m v with
    | none => rw [hl] at hh; simp at hh
    | some x => rfl
  · have hh := h v hv
    cases hl : lookupKey m v with
    | none => rw [hl] at hh; cases hh
    | some x => simp [hl]

/-- Helper: the extra-keys filter is empty iff every map key is a
variant. -/
theorem extra_nil_iff (variants : List String) (m : AllocMap) :
    (((m.map (·.1)).filter fun k => ! variants.contains k) = []) ↔
      ∀ kv ∈ m, kv.1 ∈ variants := by
  rw [List.filter_eq_nil_iff]
  constructor <;> intro h
  · intro kv hkv
    have hh := h kv.1 (List.mem_map.mpr ⟨kv, hkv, rfl⟩)
    simpa using hh
  · intro k hk
    obtain ⟨kv, hkv, rfl⟩ := List.mem_map.mp hk
    simpa using h kv hkv

/-- Helper: the negativity guard is false iff every looked-up value is
nonnegative. -/
theorem noneg_iff (variants : List String) (m : AllocMap) :
    (¬(((variants.map fun v => (lookupKey m v).getD 0).any fun v =>
        decide (v < 0)) = true)) ↔
      ∀ v ∈ variants, 0 ≤ (lookupKey m v).getD 0 := by
  rw [List.any_eq_true]
  constructor <;> intro h
  · intro v hv
    by_contra hneg
    exact h ⟨(lookupKey m v).getD 0, List.mem_map.mpr ⟨v, hv, rfl⟩,
      by simpa using lt_of_not_le hneg⟩
  · rintro ⟨x, hx, hxlt⟩
    obtain ⟨v, hv, rfl⟩ := List.mem_map.mp hx
    rw [decide_eq_true_eq] at hxlt
    exact absurd (h v hv) (not_le.mpr hxlt)

/-- C8 (allocation validation): an explicit allocation map passes
`_validate_allocation_map`, and is accepted by `normalize_allocations`
with the looked-up values as result, exactly when its keys are exactly
the variant list, all values are ≥ 0, and the values sum to 1 within
tolerance 1e-6; any rejection is a ValueError; in particular the map
A ↦ 0.6, B ↦ 0.3 (sum 0.9) is rejected while A ↦ 0.6, B ↦ 0.4 is
accepted. -/
theorem allocation_validation (variants : List String) (m : AllocMap) :
    (validate_allocation_map variants m = .ok () ↔
      spec_allocation_ok variants m) ∧
    (¬ spec_allocation_ok variants m →
      ∃ msg, validate_allocation_map variants m =
        .error (.valueError msg)) ∧
    (normalize_allocations variants (some m) =
        .ok (variants.map fun v => (lookupKey m v).getD 0) ↔
      spec_allocation_ok variants m) ∧
    validate_allocation_map ["A", "B"] [("A", 0.6), ("B", 0.3)] =
      .error (.valueError "allocation must sum to 1.0") ∧
    validate_allocation_map ["A", "B"] [("A", 0.6), ("B", 0.4)] = .ok () := by
  have hbuild : (¬((variants.filter fun v => (lookupKey m v).isNone) ≠ [] ∨
        ((m.map (·.1)).filter fun k => ! variants.contains k) ≠ [])) →
      ¬(((variants.map fun v => (lookupKey m v).getD 0).any fun v =>
        decide (v < 0)) = true) →
      ¬(|(variants.map fun v => (lookupKey m v).getD 0).sum - 1| > tol6) →
      spec_allocation_ok variants m := by
    intro h1 h2 h3
    rw [not_or, not_ne_iff, not_ne_iff] at h1
    exact ⟨(missing_nil_iff variants m).mp h1.1,
      (extra_nil_iff variants m).mp h1.2,
      (noneg_iff variants m).mp h2, not_lt.mp h3⟩
  have hdestr : spec_allocation_ok variants m →
      ((variants.filter fun v => (lookupKey m v).isNone) = [] ∧
        ((m.map (·.1)).filter fun k => ! variants.contains k) = []) ∧
      ¬(((variants.map fun v => (lookupKey m v).getD 0).any fun v =>
        decide (v < 0)) = true) ∧
      |(variants.map fun v => (lookupKey m v).getD 0).sum - 1| ≤ tol6 := by
    intro hc
    exact ⟨⟨(missing_nil_iff variants m).mpr hc.1,
      (extra_nil_iff variants m).mpr hc.2.1⟩,
      (noneg_iff variants m).mpr hc.2.2.1, hc.2.2.2⟩
  refine ⟨?_, ?_, ?_, by decide, by decide⟩
  · simp only [validate_allocation_map]
    split_ifs with h1 h2 h3
    · constructor
      · intro h
        exact h.elim
      · intro hc
        obtain ⟨⟨ha, hb⟩, _, _⟩ := hdestr hc
        rcases h1 with h1 | h1
        · exact absurd ha h1
        · exact absurd hb h1
    · constructor
      · intro h
        exact h.elim
      · intro hc
        exact absurd h2 (hdestr hc).2.1
    · constructor
      · intro h
        exact h.elim
      · intro hc
        exact absurd (hdestr hc).2.2 (not_le.mpr h3)
    · exact iff_of_true rfl (hbuild h1 h2 h3)
  · intro hc
    simp only [validate_allocation_map]
    split_ifs with h1 h2 h3
    · exact ⟨_, rfl⟩
    · exact ⟨_, rfl⟩
    · exact ⟨_, rfl⟩
    · exact absurd (hbuild h1 h2 h3) hc
  · by_cases hv : variants = []
    · simp only [normalize_allocations, if_pos hv]
      constructor
      · intro h
        exact Except.noConfusion h
      · intro hc
        exfalso
        have h4 := hc.2.2.2
        subst hv
        simp only [List.map_nil, List.sum_nil] at h4
        rw [show |(0 : ℚ) - 1| = 1 by norm_num] at h4
        norm_num [tol6] at h4
    · simp only [normalize_allocations, if_neg hv]
      split_ifs with h1 h2 h3 h4
      · constructor
        · intro h
          exact h.elim
        · intro hc
          obtain ⟨⟨ha, hb⟩, _, _⟩ := hdestr hc
          rcases h1 with h1 | h1
          · exact absurd ha h1
          · exact absurd hb h1
      · constructor
        · intro h
          exact h.elim
        · intro hc
          exact absurd h2 (hdestr hc).2.1
      · constructor
        · intro h
          exact h.elim
        · intro hc
          have h4 := (hdestr hc).2.2
          have htol : (tol6 : ℚ) < 1 := by norm_num [tol6]
          have := abs_le.mp h4
          linarith [this.1]
      · exact iff_of_true rfl (hbuild h1 h2 (not_lt.mpr h4))
      · constructor
        · intro h
          exact h.elim
        · intro hc
          exact absurd (hdestr hc).2.2 h4

/-- Helper: `remove_experiment` never raises. -/
theorem remove_experiment_no_err (s : Sess) (layer : Layer) (eid : String)
    (er : Err) (s' : Sess) : remove_experiment s layer eid ≠ .err er s' := by
  intro h
  simp only [remove_experiment] at h
  cases hf : s.working.experiments.find? fun x =>
      x.experiment_id == eid && x.layer_id == layer.layer_id with
  | none =>
    simp only [hf] at h
    exact Res.noConfusion h
  | some x =>
    simp only [hf] at h
    exact Res.noConfusion h

/-- Helper: a propagating match-tail is an error only if the scrutinee
is that same error. -/
theorem res_match_err {r : Res Bool} {er : Err} {s' : Sess}
    (h : (match r with
      | .ok _ s2 => (Res.ok () s2 : Res Unit)
      | .err e2 s2 => Res.err e2 s2) = Res.err er s') :
    r = .err er s' := by
  cases r with
  | ok v s2 => exact Res.noConfusion h
  | err e2 s2 =>
    cases h
    rfl

/-- Helper: error exits of the completed-status branch keep the whole
session unchanged. -/
theorem apply_completed_config_err (s : Sess) (layer : Layer)
    (cfg : ExperimentConfig) (er : Err) (s' : Sess)
    (h : apply_completed_config s layer cfg = .err er s') :
    s' = s := by
  simp only [apply_completed_config] at h
  cases hex : s.working.getExperiment cfg.experiment_id with
  | none =>
    simp only [hex] at h
    exact Res.noConfusion h
  | some existing =>
    simp only [hex] at h
    split_ifs at h <;>
      first
        | (cases h; rfl)
        | exact Res.noConfusion h
        | exact absurd (res_match_err h)
            (remove_experiment_no_err _ layer cfg.experiment_id er s')

/-- Helper: `add_experiment` soft failures return the session unchanged. -/
theorem add_experiment_ok_false (s : Sess) (layer : Layer) (ex : Experiment)
    (s1 : Sess) (h : add_experiment s layer ex = .ok false s1) : s1 = s := by
  simp only [add_experiment] at h
  split_ifs at h <;> cases h <;> rfl

/-- Helper: `add_experiment` errors keep the persisted state. -/
theorem add_experiment_err (s : Sess) (layer : Layer) (ex : Experiment)
    (er : Err) (s1 : Sess) (h : add_experiment s layer ex = .err er s1) :
    s1.persisted = s.persisted := by
  simp only [add_experiment] at h
  split_ifs at h <;> cases h <;> rfl

/-- Helper: `_apply_reservation_slots` errors return the session
unchanged. -/
theorem apply_reservation_slots_err (s : Sess) (layer : Layer)
    (existing : Experiment) (cfg : ExperimentConfig) (er : Err) (s1 : Sess)
    (h : apply_reservation_slots s layer existing cfg = .err er s1) :
    s1 = s := by
  simp only [apply_reservation_slots] at h
  split_ifs at h <;> cases h <;> rfl

/-- Helper: `_apply_ramp_up_slots` errors return the session unchanged. -/
theorem apply_ramp_up_slots_err (s : Sess) (layer : Layer)
    (existing : Experiment) (cfg : ExperimentConfig) (er : Err) (s1 : Sess)
    (h : apply_ramp_up_slots s layer existing cfg = .err er s1) :
    s1 = s := by
  simp only [apply_ramp_up_slots] at h
  split_ifs at h <;> cases h <;> rfl

/-- Helper: every error exit of `_apply_experiment_config` keeps the
persisted state as it was when that item started. -/
theorem apply_experiment_config_err (s : Sess) (layer : Layer)
    (cfg : ExperimentConfig) (er : Err) (s' : Sess)
    (h : apply_experiment_config s layer cfg = .err er s') :
    s'.persisted = s.persisted := by
  simp only [apply_experiment_config] at h
  by_cases hc : cfg.status = ExperimentStatus.completed
  · rw [if_pos hc] at h
    rw [apply_completed_config_err s layer cfg er s' h]
  · rw [if_neg hc] at h
    cases hex : s.working.getExperiment cfg.experiment_id with
    | none =>
      simp only [hex] at h
      cases hadd : add_experiment s layer (build_experiment cfg) with
      | ok b s1 =>
        cases b <;> simp only [hadd] at h
        · cases h
          rw [add_experiment_ok_false s layer (build_experiment cfg) _ hadd]
        · exact Res.noConfusion h
      | err e2 s1 =>
        simp only [hadd] at h
        cases h
        exact add_experiment_err s layer (build_experiment cfg) _ _ hadd
    | some existing =>
      simp only [hex] at h
      by_cases hst : existing.status = ExperimentStatus.completed
      · rw [if_pos hst] at h
        cases h
        rfl
      · rw [if_neg hst] at h
        cases him : validate_experiment_immutables existing cfg with
        | error e2 =>
          simp only [him] at h
          cases h
          rfl
        | ok u =>
          cases u
          simp only [him] at h
          cases htpc : validate_traffic_percentage_change existing cfg with
          | error e2 =>
            simp only [htpc] at h
            cases h
            rfl
          | ok u =>
            cases u
            simp only [htpc] at h
            cases hrpc : validate_reserved_percentage_change s.working layer
                existing cfg with
            | error e2 =>
              simp only [hrpc] at h
              cases h
              rfl
            | ok u =>
              cases u
              simp only [hrpc] at h
              cases hres : apply_reservation_slots s layer existing cfg with
              | err e2 s1 =>
                simp only [hres] at h
                cases h
                rw [apply_reservation_slots_err s layer existing cfg _ _ hres]
              | ok u s1 =>
                cases u
                simp only [hres] at h
                cases hramp : apply_ramp_up_slots s1 layer existing cfg with
                | err e2 s2 =>
                  simp only [hramp] at h
                  cases h
                  rw [apply_ramp_up_slots_err s1 layer existing cfg _ _ hramp]
                  exact (apply_reservation_slots_ok s layer existing cfg
                    () s1 hres).2.2
                | ok u s2 =>
                  cases u
                  simp only [hramp] at h
                  exact Res.noConfusion h

/-- `_ALLOWED_SPLITTER_TYPES` from `models/config_models.py`. -/
def ALLOWED_SPLITTER_TYPES : List String :=
  ["hash", "random", "stratified", "geo", "segment"]

/-- `_validate_segmented_allocations` from `models/config_models.py` as
an acceptance predicate: true iff the validator raises nothing. -/
def validate_segmented_allocations (variants : List String) :
    Option AllocTable → Bool
  | none => true
  | some table => table.all fun kv =>
      decide (validate_allocation_map variants kv.2 = .ok ())

/-- Truthiness of an optional allocation table
(`if self.segment_allocations`). -/
def truthyTable : Option AllocTable → Bool
  | none => false
  | some t => !t.isEmpty

/-- `ExperimentConfig.validate_allocations` from
`models/config_models.py` as an acceptance predicate: true iff pydantic
construction of the model succeeds (`_validate_unique_variants`,
`_validate_allocation_map`, the three segmented-allocation checks, the
percentage bound, the splitter-type whitelist, the
splitter/allocation-kind agreement, and the date order). -/
def ExperimentConfig.validate_allocations (cfg : ExperimentConfig) : Bool :=
  !cfg.variants.isEmpty &&
  decide cfg.variants.Nodup &&
  decide (validate_allocation_map cfg.variants cfg.traffic_allocation =
    .ok ()) &&
  validate_segmented_allocations cfg.variants cfg.segment_allocations &&
  validate_segmented_allocations cfg.variants cfg.geo_allocations &&
  validate_segmented_allocations cfg.variants cfg.stratum_allocations &&
  decide (0 ≤ cfg.traffic_percentage) &&
  decide (cfg.traffic_percentage ≤ 1) &&
  ALLOWED_SPLITTER_TYPES.contains cfg.splitter_type &&
  (!truthyTable cfg.segment_allocations || cfg.splitter_type == "segment") &&
  (!truthyTable cfg.geo_allocations || cfg.splitter_type == "geo") &&
  (!truthyTable cfg.stratum_allocations ||
    cfg.splitter_type == "stratified") &&
  (match cfg.start_date, cfg.end_date with
   | some sd, some ed => decide (sd ≤ ed)
   | _, _ => true)

/-- `LayerConfig.validate_layer` from `models/config_models.py` as an
acceptance predicate: true iff the model validator raises nothing
(`total_slots` equals `BUCKET_SPACE`, the total-traffic bound, and the
slot-list uniqueness and range checks). -/
def LayerConfig.validate_layer (lc : LayerConfig) : Bool :=
  (lc.total_slots == BUCKET_SPACE) &&
  decide (0 < lc.total_traffic_percentage) &&
  decide (lc.total_traffic_percentage ≤ 1) &&
  (match lc.slots with
   | none => true
   | some slots =>
     slots.isEmpty ||
       (decide (slots.map (·.slot_index)).Nodup &&
        slots.all fun sl => decide (sl.slot_index < lc.total_slots)))

/-- A `LayerConfig` is constructible in Python iff its own model
validator and the model validators of all its nested
`ExperimentConfig`s accept (pydantic builds and validates the nested
models first). -/
def LayerConfig.constructible (lc : LayerConfig) : Bool :=
  lc.validate_layer &&
  lc.experiments.all ExperimentConfig.validate_allocations

/-- A valid new experiment for the batch's first experiment config. -/
def c3cfgNew : ExperimentConfig :=
  { experiment_id := "exp_new", layer_id := "layer_1", name := "New",
    variants := ["A", "B"], traffic_allocation := [("A", 0.5), ("B", 0.5)],
    status := .active, start_date := none, end_date := none,
    segment_allocations := none, geo_allocations := none,
    stratum_allocations := none, splitter_type := "hash",
    traffic_percentage := 0.2, reserved_percentage := 0.2, priority := 0 }

/-- A second config for the same experiment lowering
`traffic_percentage` from 0.2 to 0.1: `_apply_experiment_config`
rejects it with a hard ValueError. -/
def c3cfgBad : ExperimentConfig :=
  { c3cfgNew with traffic_percentage := 0.1 }

/-- A single-layer batch whose first experiment config is applied and
committed and whose second experiment config raises inside
`_apply_experiment_config`. -/
def c3batch : List LayerConfig :=
  [ { layer_id := "layer_1", layer_salt := "salt_1",
      total_slots := BUCKET_SPACE, total_traffic_percentage := 1,
      experiments := [c3cfgNew, c3cfgBad], slots := none } ]

/-- The session reached after the batch's layer creation and its first
experiment config, when the second experiment config is applied. -/
def c3mid : Sess :=
  (apply_experiment_config
    (create_layer emptySess "layer_1" "salt_1" BUCKET_SPACE 1).sess
    wLayer c3cfgNew).sess

/-- Counterexample to C3 as stated: every config of `c3batch` passes its
pydantic model validators; the batch's hard error is raised by
`_apply_experiment_config` on the second experiment config (the
`traffic_percentage` decrease), exactly the error of that per-item
application; yet the persisted state after the failed
`apply_layer_configs` call differs from the state before the call — the
first experiment config's slot reservations, slot activations and
experiment record (and the layer creation) were already committed and
remain applied. -/
theorem batch_atomicity_counterexample :
    c3batch.all LayerConfig.constructible = true ∧
    apply_experiment_config c3mid wLayer c3cfgBad =
      .err (.valueError "traffic_percentage cannot decrease") c3mid ∧
    apply_layer_configs c3batch emptySess =
      .err (.valueError "traffic_percentage cannot decrease") c3mid ∧
    c3mid.persisted ≠ emptySess.persisted ∧
    c3mid.persisted.getExperiment "exp_new" =
      some (build_experiment c3cfgNew) := by
  decide

/-- C3 amended (per-item atomicity): a failed `_apply_experiment_config`
leaves the persisted state exactly as it was when that item started; the
enclosing `apply_layer_configs` batch, however, commits item by item, so
earlier items remain applied after a later failure. -/
theorem batch_atomicity_per_item (s : Sess) (layer : Layer)
    (cfg : ExperimentConfig) (er : Err) (s' : Sess)
    (h : apply_experiment_config s layer cfg = .err er s') :
    s'.persisted = s.persisted :=
  apply_experiment_config_err s layer cfg er s' h

/-- Witness for the amended C3 at a concrete input. -/
theorem batch_atomicity_per_item_witness :
    (apply_experiment_config c5s wLayer c5cfgActive =
      .err (.valueError "traffic_percentage cannot decrease") c5s) ∧
    c5s.persisted = c5s.persisted :=
  ⟨by decide, batch_atomicity_per_item c5s wLayer c5cfgActive
    (.valueError "traffic_percentage cannot decrease") c5s (by decide)⟩

/-- `reserved_slots_needed` as computed by `add_experiment`. -/
def reserved_slots_needed (layer : Layer) (ex : Experiment) : Nat :=
  (⌈ex.reserved_percentage * (layer.total_slots : ℚ)⌉).toNat

/-- `active_slots_needed` as computed by `add_experiment`. -/
def active_slots_needed (layer : Layer) (ex : Experiment) : Nat :=
  (⌈ex.traffic_percentage * (layer.total_slots : ℚ)⌉).toNat

/-- The `free_slots` selection of `add_experiment`: the first
`reserved_slots_needed` of the layer's unreserved slot indices in
ascending order. -/
def selected_slots (db : DB) (layer : Layer) (ex : Experiment) : List Nat :=
  (db.freeSlotIdxs layer.layer_id).take (reserved_slots_needed layer ex)

/-- Helper: membership in the free-slot query. -/
theorem mem_freeSlotIdxs {db : DB} {L : String} {i : Nat} :
    i ∈ db.freeSlotIdxs L ↔ ∃ sl ∈ db.slots, sl.layer_id = L ∧
      sl.reserved_experiment_id = none ∧ sl.slot_index = i := by
  unfold DB.freeSlotIdxs
  rw [(List.perm_insertionSort _ _).mem_iff]
  constructor
  · intro h
    obtain ⟨sl, hsl, hidx⟩ := List.mem_map.mp h
    have hf := List.mem_filter.mp hsl
    have hc := hf.2
    rw [Bool.and_eq_true] at hc
    exact ⟨sl, hf.1, by simpa using hc.1, by simpa using hc.2, hidx⟩
  · rintro ⟨sl, hsl, hL, hres, hidx⟩
    exact List.mem_map.mpr ⟨sl, List.mem_filter.mpr ⟨hsl, by
      simp [hL, hres]⟩, hidx⟩

/-- Helper: the free-slot query is sorted ascending. -/
theorem freeSlotIdxs_sorted (db : DB) (L : String) :
    (db.freeSlotIdxs L).Sorted (· ≤ ·) :=
  List.sorted_insertionSort _ _

/-- Helper: elements of a prefix of a sorted list lie below the other
elements. -/
theorem sorted_take_le {l : List Nat} {n : Nat} (hs : l.Sorted (· ≤ ·))
    {i j : Nat} (hi : i ∈ l.take n) (hj : j ∈ l) (hnj : j ∉ l.take n) :
    i ≤ j := by
  have hj1 : j ∈ l.take n ++ l.drop n := by
    rw [List.take_append_drop n l]
    exact hj
  have hj2 : j ∈ l.drop n := by
    rcases List.mem_append.mp hj1 with h | h
    · exact absurd h hnj
    · exact h
  rw [← List.take_append_drop n l] at hs
  exact (List.pairwise_append.mp hs).2.2 i hi j hj2

/-- Helper: shape of a successful (`True`-returning) `add_experiment`. -/
theorem add_experiment_ok_true (s : Sess) (layer : Layer) (ex : Experiment)
    (s1 : Sess) (h : add_experiment s layer ex = .ok true s1) :
    (selected_slots s.working layer ex).length =
      reserved_slots_needed layer ex ∧
    active_slots_needed layer ex ≤ reserved_slots_needed layer ex ∧
    s1.working.slots =
      ((s.working.reserveSlots layer.layer_id ex.experiment_id
          (selected_slots s.working layer ex)).activateReservedSlots
        layer.layer_id ex.experiment_id
        ((selected_slots s.working layer ex).take
          (active_slots_needed layer ex))).slots := by
  simp only [add_experiment] at h
  split_ifs at h with h1 h2 h3 h4 h5 <;> cases h
  refine ⟨?_, ?_, ?_⟩
  · simp only [selected_slots, reserved_slots_needed, List.length_take]
    rw [List.length_take] at h4
    omega
  · simp only [active_slots_needed, reserved_slots_needed]
    omega
  · rfl

/-- Helper: the reservation loop followed by the activation loop marks
exactly the previously-unreserved selected slots of the layer, activating
those whose index lies in the activation sub-list. -/
theorem slots_reserve_activate (db : DB) (L eid : String)
    (sel act : List Nat)
    (hfresh : ∀ sl ∈ db.slots, sl.reserved_experiment_id ≠ some eid) :
    ((db.reserveSlots L eid sel).activateReservedSlots L eid act).slots =
      db.slots.map fun sl =>
        if sl.layer_id == L && sl.reserved_experiment_id == none &&
            sel.contains sl.slot_index then
          { sl with
            reserved_experiment_id := some eid,
            experiment_id := if act.contains sl.slot_index then some eid
              else sl.experiment_id }
        else sl := by
  show ((db.slots.map fun sl =>
      if sl.layer_id == L && sl.reserved_experiment_id == none &&
          sel.contains sl.slot_index
      then { sl with reserved_experiment_id := some eid } else sl).map
      fun sl =>
        if sl.layer_id == L && sl.reserved_experiment_id == some eid &&
            act.contains sl.slot_index
        then { sl with experiment_id := some eid } else sl) = _
  rw [List.map_map]
  refine List.map_congr_left fun sl hsl => ?_
  simp only [Function.comp]
  by_cases c1 : (sl.layer_id == L && sl.reserved_experiment_id == none &&
      sel.contains sl.slot_index) = true
  · rw [if_pos c1, if_pos c1]
    have hL : (sl.layer_id == L) = true := by
      rw [Bool.and_eq_true, Bool.and_eq_true] at c1
      exact c1.1.1
    by_cases c2 : act.contains sl.slot_index = true
    · rw [if_pos (by
        simp only [Bool.and_eq_true]
        exact ⟨⟨hL, by simp⟩, c2⟩), if_pos c2]
    · rw [if_neg (by
        simp only [Bool.and_eq_true]
        exact fun hcc => c2 hcc.2), if_neg c2]
  · rw [if_neg c1, if_neg c1]
    have hno : ¬((sl.layer_id == L &&
        sl.reserved_experiment_id == some eid &&
        act.contains sl.slot_index) = true) := by
      intro hcond
      rw [Bool.and_eq_true, Bool.and_eq_true] at hcond
      exact hfresh sl hsl (by simpa using hcond.1.2)
    rw [if_neg hno]

/-- C4 (add_experiment slot selection): when `add_experiment` succeeds
for an experiment no slot is yet reserved for, it selects exactly
`ceil(reserved_percentage * total_slots)` currently-unreserved slot
indices of the layer, the lowest free indices first; the slots it marks
are exactly the layer's previously-unreserved slots with a selected
index, all get `reserved_experiment_id`, and the active
`experiment_id` is set on exactly those whose index lies in the first
`ceil(traffic_percentage * total_slots)` of the selection, a prefix of
the selected list. -/
theorem add_experiment_slot_selection (s : Sess) (layer : Layer)
    (ex : Experiment) (s1 : Sess)
    (hfresh : ∀ sl ∈ s.working.slots,
      sl.reserved_experiment_id ≠ some ex.experiment_id)
    (hok : add_experiment s layer ex = .ok true s1) :
    (selected_slots s.working layer ex).length =
      reserved_slots_needed layer ex ∧
    (∀ i ∈ selected_slots s.working layer ex, ∃ sl ∈ s.working.slots,
      sl.layer_id = layer.layer_id ∧ sl.reserved_experiment_id = none ∧
        sl.slot_index = i) ∧
    (∀ i ∈ selected_slots s.working layer ex,
      ∀ j ∈ s.working.freeSlotIdxs layer.layer_id,
        j ∉ selected_slots s.working layer ex → i ≤ j) ∧
    active_slots_needed layer ex ≤ reserved_slots_needed layer ex ∧
    (∃ rest, selected_slots s.working layer ex =
      (selected_slots s.working layer ex).take
        (active_slots_needed layer ex) ++ rest) ∧
    s1.working.slots = s.working.slots.map fun sl =>
      if sl.layer_id == layer.layer_id &&
          sl.reserved_experiment_id == none &&
          (selected_slots s.working layer ex).contains sl.slot_index then
        { sl with
          reserved_experiment_id := some ex.experiment_id,
          experiment_id :=
            if ((selected_slots s.working layer ex).take
                (active_slots_needed layer ex)).contains sl.slot_index then
              some ex.experiment_id
            else sl.experiment_id }
      else sl := by
  obtain ⟨hlen, hAR, hslots⟩ := add_experiment_ok_true s layer ex s1 hok
  refine ⟨hlen, ?_, ?_, hAR,
    ⟨(selected_slots s.working layer ex).drop (active_slots_needed layer ex),
      (List.take_append_drop _ _).symm⟩,
    hslots.trans (slots_reserve_activate s.working layer.layer_id
      ex.experiment_id (selected_slots s.working layer ex)
      ((selected_slots s.working layer ex).take
        (active_slots_needed layer ex)) hfresh)⟩
  · intro i hi
    exact mem_freeSlotIdxs.mp (List.mem_of_mem_take hi)
  · intro i hi j hj hnj
    exact sorted_take_le (freeSlotIdxs_sorted s.working layer.layer_id)
      hi hj hnj

/-- A fresh experiment for `layer_1`, reserving 30% and serving 20%. -/
def c4exp : Experiment :=
  { experiment_id := "exp_b", layer_id := "layer_1", name := "B test",
    variants := ["A", "B"], traffic_allocation := [("A", 0.5), ("B", 0.5)],
    start_date := none, end_date := none, segment_allocations := none,
    geo_allocations := none, stratum_allocations := none,
    splitter_type := "hash", traffic_percentage := 0.2,
    reserved_percentage := 0.3, status := .active, priority := 0 }

/-- The session after successfully adding `c4exp` to the half-occupied
layer. -/
def c4s1 : Sess := (add_experiment c5s wLayer c4exp).sess

/-- Witness for C4 at a concrete input. -/
theorem add_experiment_slot_selection_witness :
    (∀ sl ∈ c5s.working.slots,
      sl.reserved_experiment_id ≠ some c4exp.experiment_id) ∧
    (add_experiment c5s wLayer c4exp = .ok true c4s1) ∧
    (selected_slots c5s.working wLayer c4exp).length =
      reserved_slots_needed wLayer c4exp :=
  ⟨by decide, by decide,
    (add_experiment_slot_selection c5s wLayer c4exp c4s1 (by decide)
      (by decide)).1⟩

/-- Witness for C8 at a concrete input. -/
theorem allocation_validation_witness :
    validate_allocation_map ["A", "B"] [("A", 0.6), ("B", 0.4)] = .ok () ∧
    spec_allocation_ok ["A", "B"] [("A", 0.6), ("B", 0.4)] :=
  ⟨(allocation_validation ["A", "B"] [("A", 0.6), ("B", 0.4)]).1.mpr
      (by unfold spec_allocation_ok; decide),
    by unfold spec_allocation_ok; decide⟩

end Avos
